import Mathlib

/-!
# RTPS participant core (`RTPSParticipantImpl.cpp`)

A shallow embedding of the participant implementation: entity-id allocation,
endpoint creation and deletion, receiver control blocks, sender pool and the
constructor's default-locator handling.

Conventions of the embedding.
* Endpoints live in a heap of the participant state; the C++ lists of
  `RTPSWriter*` / `RTPSReader*` are lists of heap addresses (`Nat`).
* `uint32_t` values are `Nat` reduced `% 2 ^ 32` at every store.
* The byte view `(octet*)&idnum` is that of a little-endian host:
  `c[i] = (idnum / 256 ^ i) % 256`.
* The transport collaborators (`NetworkFactory`, `SupportsLocator`,
  `LocatorList_t::isValid`) are not part of the source file and are taken as
  parameters (`Network`).
* Mutexes and listener threads are not modelled beyond the per-block
  "thread started" flag; every operation is one sequential step.
-/

namespace FastRTPS

/-! ## Data model -/

/-- The four octets `value[0..3]` of an `EntityId_t`. -/
structure EntityId_t where
  value0 : Nat
  value1 : Nat
  value2 : Nat
  value3 : Nat
deriving DecidableEq, Repr

/-- The all-zero id `ENTITYID_UNKNOWN`; it is also what the default constructor
of `EntityId_t` yields. -/
def c_EntityId_Unknown : EntityId_t := ⟨0x00, 0x00, 0x00, 0x00⟩

/-- Modelled from the spec: reserved id of the SPDP built-in writer (the header
declaring the reserved ids is absent; the value is the RTPS wire constant). -/
def c_EntityId_SPDPWriter : EntityId_t := ⟨0x00, 0x01, 0x00, 0xc2⟩

/-- Modelled from the spec: reserved id of the SPDP built-in reader. -/
def c_EntityId_SPDPReader : EntityId_t := ⟨0x00, 0x01, 0x00, 0xc7⟩

/-- Modelled from the spec: reserved id of the SEDP publications writer. -/
def c_EntityId_SEDPPubWriter : EntityId_t := ⟨0x00, 0x00, 0x03, 0xc2⟩

/-- Modelled from the spec: reserved id of the SEDP publications reader. -/
def c_EntityId_SEDPPubReader : EntityId_t := ⟨0x00, 0x00, 0x03, 0xc7⟩

/-- Modelled from the spec: reserved id of the SEDP subscriptions writer. -/
def c_EntityId_SEDPSubWriter : EntityId_t := ⟨0x00, 0x00, 0x04, 0xc2⟩

/-- Modelled from the spec: reserved id of the SEDP subscriptions reader. -/
def c_EntityId_SEDPSubReader : EntityId_t := ⟨0x00, 0x00, 0x04, 0xc7⟩

/-- Modelled from the spec: reserved id of the liveliness writer. -/
def c_EntityId_WriterLiveliness : EntityId_t := ⟨0x00, 0x02, 0x00, 0xc2⟩

/-- Modelled from the spec: reserved id of the liveliness reader. -/
def c_EntityId_ReaderLiveliness : EntityId_t := ⟨0x00, 0x02, 0x00, 0xc7⟩

/-- A `GUID_t`: the participant's guid bytes and the entity id. -/
structure GUID_t where
  guidP : List Nat
  entityId : EntityId_t
deriving DecidableEq, Repr

/-- Locator kind constant `LOCATOR_KIND_UDPv4`. -/
def LOCATOR_KIND_UDPv4 : Int := 1

/-- Locator kind constant `LOCATOR_KIND_UDPv6`. -/
def LOCATOR_KIND_UDPv6 : Int := 2

/-- A `Locator_t`: kind (`int32`), port (`uint32`), 16 address octets. -/
structure Locator_t where
  kind : Int
  port : Nat
  address : List Nat
deriving DecidableEq, Repr

/-- The default-constructed `Locator_t`. -/
def Locator_t.default : Locator_t :=
  { kind := LOCATOR_KIND_UDPv4, port := 0, address := List.replicate 16 0 }

abbrev LocatorList_t := List Locator_t

inductive EndpointKind_t where
  | READER
  | WRITER
deriving DecidableEq, Repr

inductive ReliabilityKind_t where
  | BEST_EFFORT
  | RELIABLE
deriving DecidableEq, Repr

inductive TopicKind_t where
  | NO_KEY
  | WITH_KEY
deriving DecidableEq, Repr

/-- The `EndpointAttributes` read by the participant (`param.endpoint`);
`m_entityID` is what `getEntityID()` returns (a signed 16-bit number, positive
when the user supplies an entity number). -/
structure EndpointAttributes where
  endpointKind : EndpointKind_t
  reliabilityKind : ReliabilityKind_t
  topicKind : TopicKind_t
  unicastLocatorList : LocatorList_t
  multicastLocatorList : LocatorList_t
  outLocatorList : LocatorList_t
  m_entityID : Int
deriving DecidableEq, Repr

/-- An endpoint object (`StatelessWriter`, `StatefulWriter`, `StatelessReader`,
`StatefulReader`) as far as the participant looks at it: guid, attributes and,
for readers, the trusted writer. -/
structure Endpoint where
  m_guid : GUID_t
  m_att : EndpointAttributes
  trustedWriter : EntityId_t
deriving DecidableEq, Repr

/-- An opaque receiver handle built by the network factory. -/
structure ReceiverResource where
  handle : Nat
deriving DecidableEq, Repr

/-- An opaque sender handle built by the network factory. -/
structure SenderResource where
  handle : Nat
deriving DecidableEq, Repr

/-- The transport collaborators of the participant: the network factory, the
`SupportsLocator` answer of each resource and the validity test of a locator
(`LocatorList_t::isValid` holds when every locator of the list passes it). -/
structure Network where
  BuildReceiverResources : Locator_t → List ReceiverResource
  BuildSenderResources : Locator_t → List SenderResource
  ReceiverSupportsLocator : ReceiverResource → Locator_t → Bool
  SenderSupportsLocator : SenderResource → Locator_t → Bool
  IsLocatorValid : Locator_t → Bool

/-- A `ReceiverControlBlock`: the receiver, the associated writers and readers
(addresses, never owned), the scratch size of its `MessageReceiver` and whether
its listener thread has been launched (`mp_thread != nullptr`). -/
structure ReceiverControlBlock where
  Receiver : ReceiverResource
  AssociatedWriters : List Nat
  AssociatedReaders : List Nat
  mp_receiver : Nat
  mp_thread : Bool
deriving DecidableEq, Repr

/-- Modelled from the spec: a legacy `ListenResource` (its class is not in the
source file): the endpoints associated with it and its default flag. -/
structure ListenResource where
  associated : List Nat
  m_isDefaultListenResource : Bool
deriving DecidableEq, Repr

/-- Modelled from the spec: `ListenResource::removeAssociatedEndpoint`. -/
def ListenResource.removeAssociatedEndpoint (lr : ListenResource) (endp : Nat) : ListenResource :=
  { lr with associated := lr.associated.filter (fun a => a != endp) }

/-- Modelled from the spec: `ListenResource::hasAssociatedEndpoints`. -/
def ListenResource.hasAssociatedEndpoints (lr : ListenResource) : Bool :=
  !lr.associated.isEmpty

structure PortParameters where
  portBase : Nat
  domainIDGain : Nat
  participantIDGain : Nat
  offsetd3 : Nat
deriving DecidableEq, Repr

structure BuiltinAttributes where
  domainId : Nat
deriving DecidableEq, Repr

structure RTPSParticipantAttributes where
  defaultUnicastLocatorList : LocatorList_t
  defaultMulticastLocatorList : LocatorList_t
  defaultOutLocatorList : LocatorList_t
  port : PortParameters
  participantID : Nat
  builtin : BuiltinAttributes
  listenSocketBufferSize : Nat
deriving DecidableEq, Repr

/-- Calls made on the built-in protocols collaborator by endpoint deletion. -/
inductive BuiltinCall where
  | removeLocalWriter (w : Nat)
  | removeLocalReader (r : Nat)
deriving DecidableEq, Repr

/-- The state of an `RTPSParticipantImpl`. -/
structure Participant where
  m_att : RTPSParticipantAttributes
  m_guid : GUID_t
  IdCounter : Nat
  heap : List (Option Endpoint)
  m_allWriterList : List Nat
  m_allReaderList : List Nat
  m_userWriterList : List Nat
  m_userReaderList : List Nat
  m_receiverResourcelist : List ReceiverControlBlock
  m_listenResourceList : List ListenResource
  m_senderResource : List SenderResource
  builtinCalls : List BuiltinCall
deriving DecidableEq, Repr

/-! ## Heap access -/

/-- The object at an address, if it is live. -/
def Participant.deref (p : Participant) (a : Nat) : Option Endpoint :=
  p.heap[a]?.join

/-- Allocation by `new`: the object is stored at the next free address. -/
def Participant.alloc (p : Participant) (e : Endpoint) : Nat × Participant :=
  (p.heap.length, { p with heap := p.heap ++ [some e] })

/-- Release by `delete`. -/
def Participant.free (p : Participant) (a : Nat) : Participant :=
  { p with heap := p.heap.set a none }

/-- Overwrite the attributes of the object at an address. -/
def Participant.setAttributes (p : Participant) (a : Nat) (f : EndpointAttributes → EndpointAttributes) : Participant :=
  { p with heap := p.heap.modify (Option.map (fun e => { e with m_att := f e.m_att })) a }

/-- The participant with another receiver list `m_receiverResourcelist`. -/
def Participant.withReceivers (p : Participant) (R : List ReceiverControlBlock) : Participant :=
  { p with m_receiverResourcelist := R }

/-- Method `setTrustedWriter` of the reader at an address. -/
def Participant.setTrustedWriter (p : Participant) (a : Nat) (w : EntityId_t) : Participant :=
  { p with heap := p.heap.modify (Option.map (fun e => { e with trustedWriter := w })) a }

/-- The entity id read through a pointer, `(*it)->getGuid().entityId`. -/
def Participant.entityIdAt (p : Participant) (a : Nat) : Option EntityId_t :=
  (p.deref a).map (fun e => e.m_guid.entityId)

/-! ## Entity ids -/

/-- Two to the thirty-two: the modulus of `uint32_t`. -/
def UINT32 : Nat := 2 ^ 32

/-- Octet `c[i]` of `octet* c = (octet*)&idnum` on a little-endian host. -/
def octetOf (idnum : Nat) (i : Nat) : Nat := (idnum / 256 ^ i) % 256

/-- Function `TrustedWriter`: the writer a built-in reader accepts data from. -/
def TrustedWriter (reader : EntityId_t) : EntityId_t :=
  if reader = c_EntityId_SPDPReader then c_EntityId_SPDPWriter
  else if reader = c_EntityId_SEDPPubReader then c_EntityId_SEDPPubWriter
  else if reader = c_EntityId_SEDPSubReader then c_EntityId_SEDPSubWriter
  else if reader = c_EntityId_ReaderLiveliness then c_EntityId_WriterLiveliness
  else c_EntityId_Unknown

/-- Method `existsEntityId`: a linear scan of the user writers (kind `WRITER`)
or of the user readers (any other kind). -/
def existsEntityId (p : Participant) (ent : EntityId_t) (kind : EndpointKind_t) : Bool :=
  if kind = EndpointKind_t.WRITER then
    p.m_userWriterList.any (fun a => p.entityIdAt a == some ent)
  else
    p.m_userReaderList.any (fun a => p.entityIdAt a == some ent)

/-- The `idnum` block shared by `createWriter` and `createReader`: the
attribute-supplied entity number when positive, else the pre-incremented
`IdCounter`. -/
def nextIdnum (p : Participant) (param : EndpointAttributes) : Nat × Participant :=
  if param.m_entityID > 0 then
    (param.m_entityID.toNat % UINT32, p)
  else
    let c := (p.IdCounter + 1) % UINT32
    (c, { p with IdCounter := c })

/-- The id written by `entId.value[3] = kindOctet; entId.value[2] = c[0];
entId.value[1] = c[1]; entId.value[0] = c[2]`. -/
def entIdOf (kindOctet : Nat) (idnum : Nat) : EntityId_t :=
  { value0 := octetOf idnum 2, value1 := octetOf idnum 1, value2 := octetOf idnum 0,
    value3 := kindOctet }

/-- Octet 3 chosen by `createWriter` for an automatic id. -/
def writerKindOctet : TopicKind_t → Nat
  | TopicKind_t.NO_KEY => 0x03
  | TopicKind_t.WITH_KEY => 0x02

/-- Octet 3 chosen by `createReader` for an automatic id. -/
def readerKindOctet : TopicKind_t → Nat
  | TopicKind_t.NO_KEY => 0x04
  | TopicKind_t.WITH_KEY => 0x07

/-! ## Sender resources -/

/-- The loop body of `createSendResources`, run over a locator list; the state
is the pair `(newSenders, SendersBuffer)`. Each round stores the factory's
answer in `SendersBuffer`, appends it to `newSenders` and clears
`SendersBuffer`. -/
def buildSendersLoop (net : Network) :
    LocatorList_t → List SenderResource × List SenderResource → List SenderResource × List SenderResource
  | [], st => st
  | loc :: rest, (newSenders, _) =>
    let SendersBuffer := net.BuildSenderResources loc
    let newSenders := newSenders ++ SendersBuffer
    buildSendersLoop net rest (newSenders, [])

/-- Method `createSendResources`: builds senders for the endpoint's
`outLocatorList` (or the participant's `defaultOutLocatorList` when that list
is empty), then inserts `SendersBuffer` at the end of `m_senderResource`. -/
def createSendResources (net : Network) (p : Participant) (pend : Nat) : Bool × Participant :=
  let outLocatorList := ((p.deref pend).map (fun e => e.m_att.outLocatorList)).getD []
  let st :=
    if outLocatorList.isEmpty then
      buildSendersLoop net p.m_att.defaultOutLocatorList ([], [])
    else
      buildSendersLoop net outLocatorList ([], [])
  (true, { p with m_senderResource := p.m_senderResource ++ st.2 })

/-! ## Receiver control blocks -/

/-- Whether some pointer of the list has the given entity id (the inner search
loops of `assignEndpoint2LocatorList`). -/
def foundIn (p : Participant) (assoc : List Nat) (ent : Option EntityId_t) : Bool :=
  assoc.any (fun a => p.entityIdAt a == ent)

/-- The scan of the receiver list for one locator in
`assignEndpoint2LocatorList`: the first block that supports the locator and
does not yet hold the endpoint's entity id gets the endpoint, and the scan
reports `some` of the updated list (the method then returns); `none` when no
block was changed. Through a dangling endpoint pointer no block is changed. -/
def assignInBlocks (net : Network) (p : Participant) (endp : Nat) (lit : Locator_t) :
    List ReceiverControlBlock → Option (List ReceiverControlBlock)
  | [] => none
  | b :: bs =>
    if net.ReceiverSupportsLocator b.Receiver lit then
      match (p.deref endp).map (fun e => e.m_att.endpointKind) with
      | some EndpointKind_t.WRITER =>
        if foundIn p b.AssociatedWriters (p.entityIdAt endp) then
          (assignInBlocks net p endp lit bs).map (fun bs2 => b :: bs2)
        else
          some ({ b with AssociatedWriters := b.AssociatedWriters ++ [endp] } :: bs)
      | some EndpointKind_t.READER =>
        if foundIn p b.AssociatedReaders (p.entityIdAt endp) then
          (assignInBlocks net p endp lit bs).map (fun bs2 => b :: bs2)
        else
          some ({ b with AssociatedReaders := b.AssociatedReaders ++ [endp] } :: bs)
      | none => (assignInBlocks net p endp lit bs).map (fun bs2 => b :: bs2)
    else
      (assignInBlocks net p endp lit bs).map (fun bs2 => b :: bs2)

/-- The outer loop of `assignEndpoint2LocatorList` over the locator list. -/
def assignLoop (net : Network) (p : Participant) (endp : Nat) :
    LocatorList_t → List ReceiverControlBlock
  | [] => p.m_receiverResourcelist
  | lit :: rest =>
    match assignInBlocks net p endp lit p.m_receiverResourcelist with
    | some blocks => blocks
    | none => assignLoop net p endp rest

/-- Method `assignEndpoint2LocatorList`; it returns `true` on every path. The
flags `isMulti` and `isFixed` are not read by the body. -/
def assignEndpoint2LocatorList (net : Network) (p : Participant) (endp : Nat)
    (list : LocatorList_t) (_isMulti : Bool) (_isFixed : Bool) : Bool × Participant :=
  (true, p.withReceivers (assignLoop net p endp list))

/-- The pair of lists that `assignEndpointListenResources` binds and writes
back: the participant defaults when the endpoint is not built-in and both of its
lists are empty, else the endpoint's own lists. -/
def bindLists (p : Participant) (endp : Nat) (isBuiltin : Bool) : LocatorList_t × LocatorList_t :=
  let att := (p.deref endp).map (fun e => e.m_att)
  let uni := (att.map (fun a => a.unicastLocatorList)).getD []
  let mul := (att.map (fun a => a.multicastLocatorList)).getD []
  if uni.isEmpty && !isBuiltin && mul.isEmpty then
    (p.m_att.defaultUnicastLocatorList, p.m_att.defaultMulticastLocatorList)
  else (uni, mul)

/-- Method `assignEndpointListenResources`. -/
def assignEndpointListenResources (net : Network) (p : Participant) (endp : Nat)
    (isBuiltin : Bool) : Bool × Participant :=
  let valid := true
  let att := (p.deref endp).map (fun e => e.m_att)
  let unicastempty := ((att.map (fun a => a.unicastLocatorList)).getD []).isEmpty
  let multicastempty := ((att.map (fun a => a.multicastLocatorList)).getD []).isEmpty
  let uniList : LocatorList_t :=
    if !unicastempty then (att.map (fun a => a.unicastLocatorList)).getD [] else []
  let mulList : LocatorList_t :=
    if !multicastempty then (att.map (fun a => a.multicastLocatorList)).getD [] else []
  -- UNICAST
  let r1 :=
    if unicastempty && !isBuiltin && multicastempty then
      let r := assignEndpoint2LocatorList net p endp p.m_att.defaultUnicastLocatorList false false
      (valid && r.1,
        r.2.setAttributes endp (fun a => { a with unicastLocatorList := p.m_att.defaultUnicastLocatorList }))
    else
      let r := assignEndpoint2LocatorList net p endp uniList false (!isBuiltin)
      (valid && r.1, r.2.setAttributes endp (fun a => { a with unicastLocatorList := uniList }))
  -- MULTICAST
  let p1 := r1.2
  if multicastempty && !isBuiltin && unicastempty then
    let r := assignEndpoint2LocatorList net p1 endp p1.m_att.defaultMulticastLocatorList true false
    (r1.1 && r.1,
      r.2.setAttributes endp (fun a => { a with multicastLocatorList := p1.m_att.defaultMulticastLocatorList }))
  else
    let r := assignEndpoint2LocatorList net p1 endp mulList true (!isBuiltin)
    (r1.1 && r.1, r.2.setAttributes endp (fun a => { a with multicastLocatorList := mulList }))

/-- The four build loops of `createAndAssociateReceiverswithEndpoint`: every
locator of the list is handed to the factory and the answers are appended to
`newItems`. -/
def buildReceiversLoop (net : Network) : LocatorList_t → List ReceiverResource → List ReceiverResource
  | [], newItems => newItems
  | loc :: rest, newItems => buildReceiversLoop net rest (newItems ++ net.BuildReceiverResources loc)

/-- Step 2 of the creation paths: one fresh control block per new receiver,
with empty endpoint sets and no thread yet. -/
def newBlock (p : Participant) (r : ReceiverResource) : ReceiverControlBlock :=
  { Receiver := r, AssociatedWriters := [], AssociatedReaders := [],
    mp_receiver := p.m_att.listenSocketBufferSize, mp_thread := false }

/-- Step 4 of the creation paths: every block without a thread gets one. -/
def launchThreads (blocks : List ReceiverControlBlock) : List ReceiverControlBlock :=
  blocks.map (fun b => if b.mp_thread = false then { b with mp_thread := true } else b)

/-- Method `createAndAssociateReceiverswithEndpoint`; it returns `true` on
every path. -/
def createAndAssociateReceiverswithEndpoint (net : Network) (p : Participant) (pend : Nat)
    (isBuiltIn : Bool) : Bool × Participant :=
  let att := (p.deref pend).map (fun e => e.m_att)
  let unicast := (att.map (fun a => a.unicastLocatorList)).getD []
  let multicast := (att.map (fun a => a.multicastLocatorList)).getD []
  let newItems : List ReceiverResource := []
  let newItems :=
    if unicast.isEmpty then buildReceiversLoop net p.m_att.defaultUnicastLocatorList newItems
    else buildReceiversLoop net unicast newItems
  let newItems :=
    if multicast.isEmpty then buildReceiversLoop net p.m_att.defaultMulticastLocatorList newItems
    else buildReceiversLoop net multicast newItems
  let p1 := p.withReceivers (p.m_receiverResourcelist ++ newItems.map (newBlock p))
  let p2 := (assignEndpointListenResources net p1 pend isBuiltIn).2
  (true, p2.withReceivers (launchThreads p2.m_receiverResourcelist))

/-! ## Endpoint creation and deletion -/

/-- The registration at the end of `createWriter`: the writer is pushed on
`m_allWriterList` and, when it is not built-in, on `m_userWriterList`. -/
def Participant.registerWriter (p : Participant) (SWriter : Nat) (isBuiltin : Bool) : Participant :=
  { p with
    m_allWriterList := p.m_allWriterList ++ [SWriter]
    m_userWriterList := if !isBuiltin then p.m_userWriterList ++ [SWriter] else p.m_userWriterList }

/-- The registration at the end of `createReader`: the reader is pushed on
`m_allReaderList` and, when it is not built-in, on `m_userReaderList`. -/
def Participant.registerReader (p : Participant) (SReader : Nat) (isBuiltin : Bool) : Participant :=
  { p with
    m_allReaderList := p.m_allReaderList ++ [SReader]
    m_userReaderList := if !isBuiltin then p.m_userReaderList ++ [SReader] else p.m_userReaderList }

/-- The tail of `createWriter` after the writer object exists: sender
resources, receivers for a RELIABLE writer, registration in the indices. -/
def finishWriter (net : Network) (p : Participant) (SWriter : Nat)
    (param : EndpointAttributes) (isBuiltin : Bool) : Option Nat × Participant :=
  let p1 := (createSendResources net p SWriter).2
  let r :=
    if param.reliabilityKind = ReliabilityKind_t.RELIABLE then
      createAndAssociateReceiverswithEndpoint net p1 SWriter isBuiltin
    else (true, p1)
  if !r.1 then
    (none, r.2.free SWriter)
  else
    (some SWriter, r.2.registerWriter SWriter isBuiltin)

/-- Method `createWriter`. The result is the new writer's address (`*WriterOut`)
when the method returns `true` and `none` when it returns `false`. `param` is
`param.endpoint`; the attributes object of a writer carries
`endpointKind = WRITER`. -/
def createWriter (net : Network) (p : Participant) (param : EndpointAttributes)
    (entityId : EntityId_t) (isBuiltin : Bool) : Option Nat × Participant :=
  let chosen : Option EntityId_t × Participant :=
    if entityId = c_EntityId_Unknown then
      let r := nextIdnum p param
      let entId := entIdOf (writerKindOctet param.topicKind) r.1
      if existsEntityId r.2 entId EndpointKind_t.WRITER then (none, r.2) else (some entId, r.2)
    else
      (some entityId, p)
  match chosen with
  | (none, p1) => (none, p1)
  | (some entId, p1) =>
    if !(param.unicastLocatorList.all net.IsLocatorValid) then (none, p1)
    else if !(param.multicastLocatorList.all net.IsLocatorValid) then (none, p1)
    else
      let guid : GUID_t := { guidP := p1.m_guid.guidP, entityId := entId }
      let obj : Endpoint :=
        { m_guid := guid, m_att := { param with endpointKind := EndpointKind_t.WRITER },
          trustedWriter := c_EntityId_Unknown }
      let a := p1.alloc obj
      finishWriter net a.2 a.1 param isBuiltin

/-- The tail of `createReader` after the reader object exists. -/
def finishReader (net : Network) (p : Participant) (SReader : Nat)
    (param : EndpointAttributes) (isBuiltin : Bool) (enable : Bool) : Option Nat × Participant :=
  let p1 :=
    if param.reliabilityKind = ReliabilityKind_t.RELIABLE then
      (createSendResources net p SReader).2
    else p
  let p2 :=
    if isBuiltin then
      p1.setTrustedWriter SReader (((p1.entityIdAt SReader).map TrustedWriter).getD c_EntityId_Unknown)
    else p1
  let r :=
    if enable then createAndAssociateReceiverswithEndpoint net p2 SReader isBuiltin
    else (true, p2)
  if !r.1 then
    (none, r.2.free SReader)
  else
    (some SReader, r.2.registerReader SReader isBuiltin)

/-- Method `createReader`. The existence test of the automatic id is made with
kind `WRITER`, as in the source. -/
def createReader (net : Network) (p : Participant) (param : EndpointAttributes)
    (entityId : EntityId_t) (isBuiltin : Bool) (enable : Bool) : Option Nat × Participant :=
  let chosen : Option EntityId_t × Participant :=
    if entityId = c_EntityId_Unknown then
      let r := nextIdnum p param
      let entId := entIdOf (readerKindOctet param.topicKind) r.1
      if existsEntityId r.2 entId EndpointKind_t.WRITER then (none, r.2) else (some entId, r.2)
    else
      (some entityId, p)
  match chosen with
  | (none, p1) => (none, p1)
  | (some entId, p1) =>
    if !(param.unicastLocatorList.all net.IsLocatorValid) then (none, p1)
    else if !(param.multicastLocatorList.all net.IsLocatorValid) then (none, p1)
    else
      let guid : GUID_t := { guidP := p1.m_guid.guidP, entityId := entId }
      let obj : Endpoint :=
        { m_guid := guid, m_att := { param with endpointKind := EndpointKind_t.READER },
          trustedWriter := c_EntityId_Unknown }
      let a := p1.alloc obj
      finishReader net a.2 a.1 param isBuiltin enable

/-- Method `enableReader`. -/
def enableReader (net : Network) (p : Participant) (reader : Nat) (isBuiltin : Bool) :
    Bool × Participant :=
  let r := assignEndpointListenResources net p reader isBuiltin
  if !r.1 then (false, r.2) else (true, r.2)

/-- The search-and-erase loops of `deleteUserEndpoint`: the first pointer whose
entity id equals that of the endpoint is erased; `none` when there is none. -/
def eraseFirstWithId (p : Participant) (ent : Option EntityId_t) : List Nat → Option (List Nat)
  | [] => none
  | a :: rest =>
    if p.entityIdAt a == ent then some rest
    else (eraseFirstWithId p ent rest).map (fun rest2 => a :: rest2)

/-- The garbage-collection loop of `deleteUserEndpoint` over
`m_listenResourceList`: while some resource has no associated endpoint and is
not a default one, the first such resource is erased. The first argument
bounds the number of rounds; the length of the list is always enough. -/
def collectListenResources : Nat → List ListenResource → List ListenResource
  | 0, l => l
  | n + 1, l =>
    if l.any (fun lr => !lr.hasAssociatedEndpoints && !lr.m_isDefaultListenResource) then
      collectListenResources n
        (l.eraseP (fun lr => !lr.hasAssociatedEndpoints && !lr.m_isDefaultListenResource))
    else l

/-- Method `deleteUserEndpoint`, for a live endpoint pointer (on a dangling
pointer the C++ has no defined behaviour; the embedding then answers `false`).
The association removal and the garbage collection run over
`m_listenResourceList`, as in the source. -/
def deleteUserEndpoint (p : Participant) (p_endpoint : Nat) : Bool × Participant :=
  match p.deref p_endpoint with
  | none => (false, p)
  | some e =>
    let found : Option Participant :=
      if e.m_att.endpointKind = EndpointKind_t.WRITER then
        (eraseFirstWithId p (p.entityIdAt p_endpoint) p.m_userWriterList).map
          (fun l => { p with m_userWriterList := l })
      else
        (eraseFirstWithId p (p.entityIdAt p_endpoint) p.m_userReaderList).map
          (fun l => { p with m_userReaderList := l })
    match found with
    | none => (false, p)
    | some p1 =>
      let p2 :=
        if e.m_att.endpointKind = EndpointKind_t.WRITER then
          { p1 with builtinCalls := p1.builtinCalls ++ [BuiltinCall.removeLocalWriter p_endpoint] }
        else
          { p1 with builtinCalls := p1.builtinCalls ++ [BuiltinCall.removeLocalReader p_endpoint] }
      let l1 := p2.m_listenResourceList.map (fun lr => lr.removeAssociatedEndpoint p_endpoint)
      let l2 := collectListenResources l1.length l1
      let p3 := { p2 with m_listenResourceList := l2 }
      (true, p3.free p_endpoint)

/-! ## Construction -/

/-- Function `applyLocatorAdaptRule`. The source edits its by-value parameter
(UDPv4: `port += 10`; UDPv6: nothing) and reaches the end of the function
without a `return` statement, so the source text does not determine the value
the caller receives. The embedding takes the edited locator as that value, as
the comment at the call ("Mutate the Locator ... Overwrite the old one")
intends. No statement about whether the constructor finishes depends on this
choice: the adaptation loop does not exit whatever locator comes back
(`adaptWhile_no_items`). -/
def applyLocatorAdaptRule (loc : Locator_t) : Locator_t :=
  if loc.kind = LOCATOR_KIND_UDPv4 then { loc with port := (loc.port + 10) % UINT32 }
  else if loc.kind = LOCATOR_KIND_UDPv6 then loc
  else loc

/-- The locator `loc2` of the constructor: the default locator with the
computed port, stored in the `uint32` port field, and kind UDPv4. -/
def defaultUnicastLocator (m_att : RTPSParticipantAttributes) : Locator_t :=
  { Locator_t.default with
    port := (m_att.port.portBase + m_att.port.domainIDGain * m_att.builtin.domainId +
      m_att.port.offsetd3 + m_att.port.participantIDGain * m_att.participantID) % UINT32
    kind := LOCATOR_KIND_UDPv4 }

/-- The first block of the constructor: when no default listening locator of
either family is given, `loc2` is pushed on the default unicast list. -/
def addDefaultLocators (m_att : RTPSParticipantAttributes) : RTPSParticipantAttributes :=
  if m_att.defaultUnicastLocatorList.isEmpty && m_att.defaultMulticastLocatorList.isEmpty then
    { m_att with
      defaultUnicastLocatorList := m_att.defaultUnicastLocatorList ++ [defaultUnicastLocator m_att] }
  else m_att

/-- The loop `while (newItems.empty())` of the constructor, for one locator
of `defcopy`. The state is the locator `*it` and `newItemsBuffer`; `newItems`
is not written inside the loop. The first argument bounds the number of
rounds; `none` means the bound was reached with the loop still running. -/
def adaptWhile (net : Network) (newItems : List ReceiverResource) :
    Nat → Locator_t → List ReceiverResource → Option (Locator_t × List ReceiverResource)
  | 0, loc, newItemsBuffer => if newItems.isEmpty then none else some (loc, newItemsBuffer)
  | fuel + 1, loc, newItemsBuffer =>
    if newItems.isEmpty then
      adaptWhile net newItems fuel (applyLocatorAdaptRule loc)
        (net.BuildReceiverResources (applyLocatorAdaptRule loc))
    else some (loc, newItemsBuffer)

/-- The loop of the constructor over `defcopy`: the locators already visited
(mutated in place) and `newItems` are carried along. -/
def buildDefaultReceivers (net : Network) (fuel : Nat) :
    LocatorList_t → LocatorList_t → List ReceiverResource →
      Option (LocatorList_t × List ReceiverResource)
  | [], visited, newItems => some (visited, newItems)
  | it :: rest, visited, newItems =>
    match adaptWhile net newItems fuel it (net.BuildReceiverResources it) with
    | none => none
    | some (it2, newItemsBuffer) =>
      buildDefaultReceivers net fuel rest (visited ++ [it2]) (newItems ++ newItemsBuffer)

/-- Modelled from the spec: the id `c_EntityId_RTPSParticipant` of the
participant itself (declared in an absent header). -/
def c_EntityId_RTPSParticipant : EntityId_t := ⟨0x00, 0x00, 0x01, 0xc1⟩

/-- The constructor `RTPSParticipantImpl::RTPSParticipantImpl` up to the start
of the built-in protocols (a collaborator outside the source file). `fuel`
bounds each adaptation loop; `none` means a loop did not finish within it. -/
def RTPSParticipantImpl_new (net : Network) (fuel : Nat) (PParam : RTPSParticipantAttributes)
    (guidP : List Nat) : Option Participant :=
  let m_att := addDefaultLocators PParam
  let defcopy := m_att.defaultUnicastLocatorList
  let m_att := { m_att with defaultUnicastLocatorList := [] }
  match buildDefaultReceivers net fuel defcopy [] [] with
  | none => none
  | some (_, newItems) =>
    let p0 : Participant :=
      { m_att := m_att, m_guid := { guidP := guidP, entityId := c_EntityId_RTPSParticipant },
        IdCounter := 0, heap := [], m_allWriterList := [], m_allReaderList := [],
        m_userWriterList := [], m_userReaderList := [], m_receiverResourcelist := [],
        m_listenResourceList := [], m_senderResource := [], builtinCalls := [] }
    let blocks := launchThreads (p0.m_receiverResourcelist ++ newItems.map (newBlock p0))
    let m_att :=
      if m_att.defaultOutLocatorList.isEmpty then
        { m_att with defaultUnicastLocatorList := m_att.defaultUnicastLocatorList ++ [Locator_t.default] }
      else m_att
    some { p0 with m_att := m_att, m_receiverResourcelist := blocks }

/-! ## Sequences of automatic creations -/

/-- One endpoint creation with `entityId = c_EntityId_Unknown`. -/
inductive CreateCall where
  | writer (param : EndpointAttributes) (isBuiltin : Bool)
  | reader (param : EndpointAttributes) (isBuiltin : Bool) (enable : Bool)
deriving DecidableEq, Repr

/-- The attributes passed by a creation call. -/
def CreateCall.param : CreateCall → EndpointAttributes
  | CreateCall.writer param _ => param
  | CreateCall.reader param _ _ => param

/-- Octet 3 of the automatic id of a creation call. -/
def CreateCall.kindOctet : CreateCall → Nat
  | CreateCall.writer param _ => writerKindOctet param.topicKind
  | CreateCall.reader param _ _ => readerKindOctet param.topicKind

/-- Run one creation call with an automatic id. -/
def createAuto (net : Network) (p : Participant) : CreateCall → Option Nat × Participant
  | CreateCall.writer param isBuiltin => createWriter net p param c_EntityId_Unknown isBuiltin
  | CreateCall.reader param isBuiltin enable =>
    createReader net p param c_EntityId_Unknown isBuiltin enable

/-- The entity id given to the endpoint made by a creation call, `none` when
the call returned `false`. -/
def assignedId (net : Network) (p : Participant) (c : CreateCall) : Option EntityId_t :=
  (createAuto net p c).1.bind (createAuto net p c).2.entityIdAt

/-- Run a sequence of creation calls; the result lists, per call index, the
entity id assigned by that call. -/
def createAll (net : Network) : Participant → List CreateCall → List (Option EntityId_t) × Participant
  | p, [] => ([], p)
  | p, c :: rest =>
    let r := createAll net (createAuto net p c).2 rest
    (assignedId net p c :: r.1, r.2)

/-- The number held in octets 0..2 of an id, octet 0 most significant (the
order in which the source stores `idnum`). -/
def be24 (e : EntityId_t) : Nat := e.value0 * 65536 + e.value1 * 256 + e.value2

/-- The number held in octets 0..2 of an id, octet 0 least significant. -/
def le24 (e : EntityId_t) : Nat := e.value0 + e.value1 * 256 + e.value2 * 65536

/-! ## Predicates on participant states -/

/-- Two states agree on everything but the attributes stored in heap objects
and the receiver list. -/
def SameRegistry (p q : Participant) : Prop :=
  q.m_att = p.m_att ∧ q.m_guid = p.m_guid ∧ q.IdCounter = p.IdCounter ∧
  q.heap.length = p.heap.length ∧ (∀ a, q.entityIdAt a = p.entityIdAt a) ∧
  q.m_allWriterList = p.m_allWriterList ∧ q.m_allReaderList = p.m_allReaderList ∧
  q.m_userWriterList = p.m_userWriterList ∧ q.m_userReaderList = p.m_userReaderList ∧
  q.m_listenResourceList = p.m_listenResourceList ∧ q.m_senderResource = p.m_senderResource ∧
  q.builtinCalls = p.builtinCalls

/-- The endpoint kind read through a pointer. -/
def Participant.kindAt (p : Participant) (a : Nat) : Option EndpointKind_t :=
  (p.deref a).map (fun e => e.m_att.endpointKind)

/-- The inbound locators of the endpoint at an address: its unicast list
followed by its multicast list. -/
def inboundLocators (p : Participant) (a : Nat) : LocatorList_t :=
  ((p.deref a).map (fun e => e.m_att.unicastLocatorList ++ e.m_att.multicastLocatorList)).getD []

/-- Whether the receiver of a block supports some locator of the list. -/
def supportsSome (net : Network) (b : ReceiverControlBlock) (l : LocatorList_t) : Bool :=
  l.any (fun loc => net.ReceiverSupportsLocator b.Receiver loc)

/-- Whether the endpoint (by address) is in one of the associated sets of a block. -/
def isAssociated (b : ReceiverControlBlock) (a : Nat) : Bool :=
  b.AssociatedWriters.contains a || b.AssociatedReaders.contains a

/-- Whether some block of the receiver list has the endpoint in its associated
sets and supports one of the endpoint's inbound locators. -/
def reachableThroughBlock (net : Network) (p : Participant) (a : Nat) : Bool :=
  p.m_receiverResourcelist.any (fun b => isAssociated b a && supportsSome net b (inboundLocators p a))

/-- Whether the associated set of the endpoint's kind in a block has an entry
with the endpoint's entity id. -/
def holdsIdOf (p : Participant) (b : ReceiverControlBlock) (a : Nat) : Bool :=
  match p.kindAt a with
  | some EndpointKind_t.WRITER => foundIn p b.AssociatedWriters (p.entityIdAt a)
  | some EndpointKind_t.READER => foundIn p b.AssociatedReaders (p.entityIdAt a)
  | none => false

/-- Whether some block of the receiver list supports one of the endpoint's
inbound locators. -/
def someBlockSupports (net : Network) (p : Participant) (a : Nat) : Bool :=
  p.m_receiverResourcelist.any (fun b => supportsSome net b (inboundLocators p a))

/-- Whether some block of the receiver list supports one of the endpoint's
inbound locators and has an entry with the endpoint's entity id. -/
def boundThroughBlock (net : Network) (p : Participant) (a : Nat) : Bool :=
  p.m_receiverResourcelist.any (fun b => holdsIdOf p b a && supportsSome net b (inboundLocators p a))

/-- One block after some endpoints were added to it: same receiver, the
associated sets extended at the end. -/
def BlockGrows (b b2 : ReceiverControlBlock) : Prop :=
  b2.Receiver = b.Receiver ∧ b.AssociatedWriters <+: b2.AssociatedWriters ∧
  b.AssociatedReaders <+: b2.AssociatedReaders

/-! ## Concrete scenarios -/

/-- A UDPv4 locator on a port, with the default address. -/
def udp4 (port : Nat) : Locator_t := { Locator_t.default with port := port }

/-- A network in which only port 7413 can be bound for receiving (by one
receiver, handle 1), every locator gets one sender, and a locator is valid when
its kind is not negative. -/
def scenarioNet : Network :=
  { BuildReceiverResources := fun loc => if loc.port = 7413 then [⟨1⟩] else []
    BuildSenderResources := fun loc => [⟨loc.port⟩]
    ReceiverSupportsLocator := fun r loc => r.handle == 1 && loc.port == 7413
    SenderSupportsLocator := fun s loc => s.handle == loc.port
    IsLocatorValid := fun loc => decide (0 ≤ loc.kind) }

/-- Port policy of the scenarios: `portBase = 7400`, `domainIDGain = 250`,
`participantIDGain = 2`, `offsetd3 = 3`. -/
def scenarioPorts : PortParameters :=
  { portBase := 7400, domainIDGain := 250, participantIDGain := 2, offsetd3 := 3 }

/-- Participant attributes with no default unicast locator, one default
multicast locator (port 7413) and one default output locator (port 7000). -/
def scenarioAtt : RTPSParticipantAttributes :=
  { defaultUnicastLocatorList := [], defaultMulticastLocatorList := [udp4 7413],
    defaultOutLocatorList := [udp4 7000], port := scenarioPorts, participantID := 0,
    builtin := { domainId := 0 }, listenSocketBufferSize := 65536 }

/-- Participant attributes whose only default unicast locator is UDPv4:7403. -/
def adaptAtt : RTPSParticipantAttributes :=
  { scenarioAtt with defaultUnicastLocatorList := [udp4 7403], defaultMulticastLocatorList := [] }

/-- Participant attributes with both default listening lists empty. -/
def portAtt (domainId participantID : Nat) : RTPSParticipantAttributes :=
  { scenarioAtt with
    defaultMulticastLocatorList := [], participantID := participantID,
    builtin := { domainId := domainId } }

/-- The participant that the constructor yields for `scenarioAtt`. -/
def scenarioParticipant : Participant :=
  { m_att := scenarioAtt, m_guid := { guidP := [], entityId := c_EntityId_RTPSParticipant },
    IdCounter := 0, heap := [], m_allWriterList := [], m_allReaderList := [],
    m_userWriterList := [], m_userReaderList := [], m_receiverResourcelist := [],
    m_listenResourceList := [], m_senderResource := [], builtinCalls := [] }

/-- Attributes of an endpoint with no locators of its own and no entity number. -/
def plainParam (r : ReliabilityKind_t) (t : TopicKind_t) : EndpointAttributes :=
  { endpointKind := EndpointKind_t.WRITER, reliabilityKind := r, topicKind := t,
    unicastLocatorList := [], multicastLocatorList := [], outLocatorList := [],
    m_entityID := -1 }

/-- An explicit entity id used in the scenarios. -/
def scenarioId : EntityId_t := ⟨0x00, 0x00, 0x2a, 0x03⟩

/-! ## Sending -/

/-- A `CDRMessage_t` as far as `sendSync` reads it: the octets of its buffer and
its `length` field. -/
structure CDRMessage_t where
  buffer : List Nat
  length : Nat
deriving DecidableEq, Repr

/-- One call `Send(buffer, destination_loc)` on a sender resource. -/
structure SendCall where
  sender : SenderResource
  buffer : List Nat
  destination : Locator_t
deriving DecidableEq, Repr

/-- The copy loop of `sendSync`: `msg->buffer[i]` for `i` from `0` below `n`, in
order (an index past the end of the buffer contributes nothing). -/
def copyBuffer (msg : CDRMessage_t) : Nat → List Nat
  | 0 => []
  | n + 1 => copyBuffer msg n ++ (msg.buffer[n]?).toList

/-- The inner loop of `sendSync` over the sender pool, for one locator `*sit` of
the endpoint's `outLocatorList`. -/
def sendInnerLoop (net : Network) (buffer : List Nat) (destination_loc : Locator_t)
    (sit : Locator_t) : List SenderResource → List SendCall
  | [] => []
  | it :: rest =>
    if net.SenderSupportsLocator it sit then
      { sender := it, buffer := buffer, destination := destination_loc } ::
        sendInnerLoop net buffer destination_loc sit rest
    else sendInnerLoop net buffer destination_loc sit rest

/-- The outer loop of `sendSync` over the endpoint's `outLocatorList`. -/
def sendOuterLoop (net : Network) (pool : List SenderResource) (buffer : List Nat)
    (destination_loc : Locator_t) : LocatorList_t → List SendCall
  | [] => []
  | sit :: rest =>
    sendInnerLoop net buffer destination_loc sit pool ++
      sendOuterLoop net pool buffer destination_loc rest

/-- Method `sendSync`: the sends it issues, in order, and the participant state
afterwards. -/
def sendSync (net : Network) (p : Participant) (msg : CDRMessage_t) (pend : Nat)
    (destination_loc : Locator_t) : List SendCall × Participant :=
  let buffer := copyBuffer msg msg.length
  let outLocatorList := ((p.deref pend).map (fun e => e.m_att.outLocatorList)).getD []
  (sendOuterLoop net p.m_senderResource buffer destination_loc outLocatorList, p)

/-- The sends that the specification of `send_sync` asks for: for each locator
of the endpoint's `outLocatorList` (outer) and each sender of the pool (inner)
that supports it, one send of the first `length` octets of the message to the
destination. -/
def sendSyncSpec (net : Network) (pool : List SenderResource) (msg : CDRMessage_t)
    (outLocatorList : LocatorList_t) (destination_loc : Locator_t) : List SendCall :=
  outLocatorList.flatMap (fun loc =>
    (pool.filter (fun sr => net.SenderSupportsLocator sr loc)).map (fun sr =>
      { sender := sr, buffer := msg.buffer.take msg.length, destination := destination_loc }))

/-! ## Association by entity id -/

/-- The block after `push_back` of the endpoint on the associated set of the
endpoint's kind. -/
def addEndpoint (p : Participant) (b : ReceiverControlBlock) (endp : Nat) : ReceiverControlBlock :=
  match p.kindAt endp with
  | some EndpointKind_t.WRITER => { b with AssociatedWriters := b.AssociatedWriters ++ [endp] }
  | some EndpointKind_t.READER => { b with AssociatedReaders := b.AssociatedReaders ++ [endp] }
  | none => b

/-- The number of entries with the endpoint's entity id in the associated set of
the endpoint's kind in a block. -/
def idCount (p : Participant) (b : ReceiverControlBlock) (endp : Nat) : Nat :=
  match p.kindAt endp with
  | some EndpointKind_t.WRITER =>
    b.AssociatedWriters.countP (fun a => p.entityIdAt a == p.entityIdAt endp)
  | some EndpointKind_t.READER =>
    b.AssociatedReaders.countP (fun a => p.entityIdAt a == p.entityIdAt endp)
  | none => 0

/-- The associated sets of every block of the receiver list. -/
def associations (p : Participant) : List (List Nat × List Nat) :=
  p.m_receiverResourcelist.map (fun b => (b.AssociatedWriters, b.AssociatedReaders))

/-! ## Further scenarios -/

/-- A network like `scenarioNet` whose factory opens two receivers (handles 1
and 2) for port 7413, each of which supports that port. -/
def twoReceiverNet : Network :=
  { scenarioNet with
    BuildReceiverResources := fun loc => if loc.port = 7413 then [⟨1⟩, ⟨2⟩] else []
    ReceiverSupportsLocator := fun _ loc => loc.port == 7413 }

/-- A locator that is not valid in the scenario networks (negative kind). -/
def badLocator : Locator_t := { Locator_t.default with kind := -1 }

/-- The scenario participant with two senders in its pool (handles 7000 and
7001) and one live writer at address 0 whose `outLocatorList` is
`[UDPv4:7000, UDPv4:7001, UDPv4:7002]`. -/
def sendScenario : Participant :=
  { scenarioParticipant with
    heap := [some { m_guid := { guidP := [], entityId := ⟨0, 0, 1, 3⟩ },
                    m_att := { plainParam ReliabilityKind_t.BEST_EFFORT TopicKind_t.NO_KEY with
                      outLocatorList := [udp4 7000, udp4 7001, udp4 7002] },
                    trustedWriter := c_EntityId_Unknown }]
    m_allWriterList := [0], m_userWriterList := [0]
    m_senderResource := [⟨7000⟩, ⟨7001⟩] }

/-! ## Binding and reachable states -/

/-- The locator lists that binding uses for an endpoint with the given
attributes: the participant defaults when the endpoint is not built-in and both
of its lists are empty, else its own lists (the choice made by
`assignEndpointListenResources`). -/
def effectiveLists (m_att : RTPSParticipantAttributes) (att : EndpointAttributes)
    (isBuiltin : Bool) : LocatorList_t × LocatorList_t :=
  if att.unicastLocatorList.isEmpty && !isBuiltin && att.multicastLocatorList.isEmpty then
    (m_att.defaultUnicastLocatorList, m_att.defaultMulticastLocatorList)
  else (att.unicastLocatorList, att.multicastLocatorList)

/-- Whether some block of a receiver list has the endpoint (by address) in its
associated sets and supports a locator of the list. -/
def coveredBy (net : Network) (R : List ReceiverControlBlock) (L : LocatorList_t) (a : Nat) :
    Bool :=
  R.any (fun b => isAssociated b a && supportsSome net b L)

theorem buildSendersLoop_buffer (net : Network) (l : LocatorList_t) (ns : List SenderResource) :
    (buildSendersLoop net l (ns, [])).2 = [] := by
  induction l generalizing ns with
  | nil => rfl
  | cons loc rest ih => simp [buildSendersLoop, ih]

theorem createSendResources_state (net : Network) (p : Participant) (pend : Nat) :
    (createSendResources net p pend).2 = p := by
  have h : ∀ l, (if (l : LocatorList_t).isEmpty then
      buildSendersLoop net p.m_att.defaultOutLocatorList ([], [])
      else buildSendersLoop net l ([], [])).2 = [] := by
    intro l
    split <;> exact buildSendersLoop_buffer _ _ _
  simp only [createSendResources, h, List.append_nil]

theorem setAttributes_entityIdAt (p : Participant) (a b : Nat)
    (f : EndpointAttributes → EndpointAttributes) :
    (p.setAttributes a f).entityIdAt b = p.entityIdAt b := by
  unfold Participant.setAttributes Participant.entityIdAt Participant.deref
  simp only [List.getElem?_modify]
  cases h : p.heap[b]? with
  | none => simp
  | some o =>
    by_cases hab : a = b
    · cases o <;> simp [hab]
    · simp [hab]

theorem assignELR_eq (net : Network) (p : Participant) (endp : Nat) (isBuiltin : Bool) :
    assignEndpointListenResources net p endp isBuiltin =
      (true,
        (((p.withReceivers (assignLoop net p endp (bindLists p endp isBuiltin).1)).setAttributes endp
            (fun a => { a with unicastLocatorList := (bindLists p endp isBuiltin).1 })).withReceivers
          (assignLoop net
            ((p.withReceivers (assignLoop net p endp (bindLists p endp isBuiltin).1)).setAttributes endp
              (fun a => { a with unicastLocatorList := (bindLists p endp isBuiltin).1 }))
            endp (bindLists p endp isBuiltin).2)).setAttributes endp
          (fun a => { a with multicastLocatorList := (bindLists p endp isBuiltin).2 })) := by
  unfold assignEndpointListenResources bindLists assignEndpoint2LocatorList
  simp only []
  cases isBuiltin <;>
  cases hu : ((Option.map (fun a => a.unicastLocatorList)
    (Option.map (fun e => e.m_att) (p.deref endp))).getD []).isEmpty <;>
  cases hm : ((Option.map (fun a => a.multicastLocatorList)
    (Option.map (fun e => e.m_att) (p.deref endp))).getD []).isEmpty <;>
  simp only [Bool.not_true, Bool.not_false, Bool.and_true, Bool.and_false, Bool.true_and,
    Bool.false_and, if_true, if_false, reduceIte, Bool.false_eq_true] <;>
  first
    | rfl
    | (simp only [List.isEmpty_iff] at hu hm; simp only [hu, hm])

@[simp] theorem withReceivers_heap (p : Participant) (R : List ReceiverControlBlock) :
    (p.withReceivers R).heap = p.heap := rfl

@[simp] theorem withReceivers_receivers (p : Participant) (R : List ReceiverControlBlock) :
    (p.withReceivers R).m_receiverResourcelist = R := rfl

@[simp] theorem withReceivers_entityIdAt (p : Participant) (R : List ReceiverControlBlock)
    (a : Nat) : (p.withReceivers R).entityIdAt a = p.entityIdAt a := rfl

@[simp] theorem setAttributes_receivers (p : Participant) (a : Nat)
    (f : EndpointAttributes → EndpointAttributes) :
    (p.setAttributes a f).m_receiverResourcelist = p.m_receiverResourcelist := rfl

theorem sameRegistry_refl (p : Participant) : SameRegistry p p := by
  simp [SameRegistry]

theorem sameRegistry_trans {p q r : Participant} (h1 : SameRegistry p q)
    (h2 : SameRegistry q r) : SameRegistry p r := by
  obtain ⟨a1, a2, a3, a4, a5, a6, a7, a8, a9, a10, a11, a12⟩ := h1
  obtain ⟨b1, b2, b3, b4, b5, b6, b7, b8, b9, b10, b11, b12⟩ := h2
  refine ⟨?_, ?_, ?_, ?_, ?_, ?_, ?_, ?_, ?_, ?_, ?_, ?_⟩ <;>
    first
      | (intro a; rw [b5, a5])
      | simp [*]

theorem sameRegistry_withReceivers (p : Participant) (R : List ReceiverControlBlock) :
    SameRegistry p (p.withReceivers R) := by
  simp [SameRegistry, Participant.withReceivers, Participant.entityIdAt, Participant.deref]

theorem sameRegistry_setAttributes (p : Participant) (a : Nat)
    (f : EndpointAttributes → EndpointAttributes) : SameRegistry p (p.setAttributes a f) := by
  refine ⟨rfl, rfl, rfl, ?_, fun b => setAttributes_entityIdAt p a b f,
    rfl, rfl, rfl, rfl, rfl, rfl, rfl⟩
  simp [Participant.setAttributes]

theorem assignELR_same (net : Network) (p : Participant) (endp : Nat) (isBuiltin : Bool) :
    SameRegistry p (assignEndpointListenResources net p endp isBuiltin).2 := by
  rw [assignELR_eq]
  exact sameRegistry_trans
    (sameRegistry_trans
      (sameRegistry_trans (sameRegistry_withReceivers p _) (sameRegistry_setAttributes _ _ _))
      (sameRegistry_withReceivers _ _))
    (sameRegistry_setAttributes _ _ _)

theorem createAndAssociate_same (net : Network) (p : Participant) (pend : Nat) (b : Bool) :
    SameRegistry p (createAndAssociateReceiverswithEndpoint net p pend b).2 := by
  unfold createAndAssociateReceiverswithEndpoint
  exact sameRegistry_trans
    (sameRegistry_trans (sameRegistry_withReceivers p _) (assignELR_same net _ pend b))
    (sameRegistry_withReceivers _ _)

theorem alloc_entityIdAt (p : Participant) (e : Endpoint) :
    (p.alloc e).2.entityIdAt (p.alloc e).1 = some e.m_guid.entityId := by
  simp [Participant.alloc, Participant.entityIdAt, Participant.deref]

theorem alloc_entityIdAt_old (p : Participant) (e : Endpoint) (a : Nat) (h : a < p.heap.length) :
    (p.alloc e).2.entityIdAt a = p.entityIdAt a := by
  simp [Participant.alloc, Participant.entityIdAt, Participant.deref, List.getElem?_append_left h]

/-- The state in which `finishWriter` registers the writer. -/
theorem finishWriter_eq (net : Network) (p : Participant) (w : Nat) (param : EndpointAttributes)
    (isBuiltin : Bool) :
    finishWriter net p w param isBuiltin =
      (some w,
        (if param.reliabilityKind = ReliabilityKind_t.RELIABLE then
          (createAndAssociateReceiverswithEndpoint net p w isBuiltin).2 else p).registerWriter
          w isBuiltin) := by
  unfold finishWriter
  rw [createSendResources_state]
  by_cases h : param.reliabilityKind = ReliabilityKind_t.RELIABLE
  · simp [h, createAndAssociateReceiverswithEndpoint]
  · simp [h]

theorem finishReader_eq (net : Network) (p : Participant) (r : Nat) (param : EndpointAttributes)
    (isBuiltin enable : Bool) :
    finishReader net p r param isBuiltin enable =
      (some r,
        (if enable then
          (createAndAssociateReceiverswithEndpoint net
            (if isBuiltin then
              p.setTrustedWriter r (((p.entityIdAt r).map TrustedWriter).getD c_EntityId_Unknown)
            else p) r isBuiltin).2
        else
          (if isBuiltin then
              p.setTrustedWriter r (((p.entityIdAt r).map TrustedWriter).getD c_EntityId_Unknown)
            else p)).registerReader r isBuiltin) := by
  unfold finishReader
  simp only [createSendResources_state, ite_self]
  cases enable <;> simp [createAndAssociateReceiverswithEndpoint]


theorem setTrustedWriter_entityIdAt (p : Participant) (a b : Nat) (w : EntityId_t) :
    (p.setTrustedWriter a w).entityIdAt b = p.entityIdAt b := by
  unfold Participant.setTrustedWriter Participant.entityIdAt Participant.deref
  simp only [List.getElem?_modify]
  cases h : p.heap[b]? with
  | none => simp
  | some o =>
    by_cases hab : a = b
    · cases o <;> simp [hab]
    · simp [hab]

theorem sameRegistry_setTrustedWriter (p : Participant) (a : Nat) (w : EntityId_t) :
    SameRegistry p (p.setTrustedWriter a w) := by
  refine ⟨rfl, rfl, rfl, ?_, fun b => setTrustedWriter_entityIdAt p a b w,
    rfl, rfl, rfl, rfl, rfl, rfl, rfl⟩
  simp [Participant.setTrustedWriter]

theorem nextIdnum_entityIdAt (p : Participant) (param : EndpointAttributes) (a : Nat) :
    (nextIdnum p param).2.entityIdAt a = p.entityIdAt a := by
  unfold nextIdnum
  split <;> rfl

theorem nextIdnum_exists (p : Participant) (param : EndpointAttributes) (ent : EntityId_t)
    (k : EndpointKind_t) :
    existsEntityId (nextIdnum p param).2 ent k = existsEntityId p ent k := by
  unfold nextIdnum
  split <;> rfl

theorem nextIdnum_userWriters (p : Participant) (param : EndpointAttributes) :
    (nextIdnum p param).2.m_userWriterList = p.m_userWriterList := by
  unfold nextIdnum
  split <;> rfl

/-- The object that `createWriter` allocates for a chosen entity id. -/
theorem createWriter_explicit (net : Network) (p : Participant) (param : EndpointAttributes)
    (entityId : EntityId_t) (isBuiltin : Bool) (hX : entityId ≠ c_EntityId_Unknown)
    (hu : param.unicastLocatorList.all net.IsLocatorValid = true)
    (hm : param.multicastLocatorList.all net.IsLocatorValid = true) :
    createWriter net p param entityId isBuiltin =
      finishWriter net
        (p.alloc { m_guid := { guidP := p.m_guid.guidP, entityId := entityId },
                   m_att := { param with endpointKind := EndpointKind_t.WRITER },
                   trustedWriter := c_EntityId_Unknown }).2
        p.heap.length param isBuiltin := by
  simp only [createWriter, hX, if_false, hu, hm, Bool.not_true, Bool.false_eq_true]
  rfl

theorem createWriter_auto_exists (net : Network) (p : Participant) (param : EndpointAttributes)
    (isBuiltin : Bool)
    (hex : existsEntityId p (entIdOf (writerKindOctet param.topicKind) (nextIdnum p param).1)
      EndpointKind_t.WRITER = true) :
    createWriter net p param c_EntityId_Unknown isBuiltin = (none, (nextIdnum p param).2) := by
  simp only [createWriter, if_true, nextIdnum_exists, hex]

theorem createWriter_auto_fresh (net : Network) (p : Participant) (param : EndpointAttributes)
    (isBuiltin : Bool)
    (hex : existsEntityId p (entIdOf (writerKindOctet param.topicKind) (nextIdnum p param).1)
      EndpointKind_t.WRITER = false)
    (hu : param.unicastLocatorList.all net.IsLocatorValid = true)
    (hm : param.multicastLocatorList.all net.IsLocatorValid = true) :
    createWriter net p param c_EntityId_Unknown isBuiltin =
      finishWriter net
        ((nextIdnum p param).2.alloc
          { m_guid := { guidP := (nextIdnum p param).2.m_guid.guidP,
                        entityId := entIdOf (writerKindOctet param.topicKind) (nextIdnum p param).1 },
            m_att := { param with endpointKind := EndpointKind_t.WRITER },
            trustedWriter := c_EntityId_Unknown }).2
        (nextIdnum p param).2.heap.length param isBuiltin := by
  simp only [createWriter, if_true, nextIdnum_exists, hex, hu, hm, Bool.not_true,
    Bool.false_eq_true, if_false]
  rfl

theorem createWriter_auto_invalid (net : Network) (p : Participant) (param : EndpointAttributes)
    (isBuiltin : Bool)
    (hv : (param.unicastLocatorList.all net.IsLocatorValid &&
      param.multicastLocatorList.all net.IsLocatorValid) = false) :
    (createWriter net p param c_EntityId_Unknown isBuiltin).1 = none := by
  simp only [createWriter, if_true]
  rw [Bool.and_eq_false_iff] at hv
  split
  · rfl
  · rcases hv with hv | hv
    · simp [hv]
    · by_cases hu : param.unicastLocatorList.all net.IsLocatorValid = true
      · simp [hv, hu]
      · simp [hu]


theorem finishWriter_post (net : Network) (p : Participant) (w : Nat) (param : EndpointAttributes)
    (isBuiltin : Bool) :
    ∃ q, SameRegistry p q ∧ finishWriter net p w param isBuiltin = (some w, q.registerWriter w isBuiltin) := by
  rw [finishWriter_eq]
  by_cases h : param.reliabilityKind = ReliabilityKind_t.RELIABLE
  · exact ⟨_, createAndAssociate_same net p w isBuiltin, by simp [h]⟩
  · exact ⟨p, sameRegistry_refl p, by simp [h]⟩

theorem finishReader_post (net : Network) (p : Participant) (r : Nat) (param : EndpointAttributes)
    (isBuiltin enable : Bool) :
    ∃ q, SameRegistry p q ∧
      finishReader net p r param isBuiltin enable = (some r, q.registerReader r isBuiltin) := by
  rw [finishReader_eq]
  have h1 : SameRegistry p (if isBuiltin then
      p.setTrustedWriter r (((p.entityIdAt r).map TrustedWriter).getD c_EntityId_Unknown)
      else p) := by
    split
    · exact sameRegistry_setTrustedWriter _ _ _
    · exact sameRegistry_refl p
  cases enable
  · exact ⟨_, h1, by simp⟩
  · exact ⟨_, sameRegistry_trans h1 (createAndAssociate_same net _ r isBuiltin), by simp⟩

theorem registerWriter_entityIdAt (q : Participant) (w a : Nat) (b : Bool) :
    (q.registerWriter w b).entityIdAt a = q.entityIdAt a := rfl

theorem registerReader_entityIdAt (q : Participant) (w a : Nat) (b : Bool) :
    (q.registerReader w b).entityIdAt a = q.entityIdAt a := rfl

/-- A successful `createWriter` with an automatic id: the new writer sits at the
next heap address and carries the id built from `nextIdnum`. -/
theorem createWriter_auto_some (net : Network) (p : Participant) (param : EndpointAttributes)
    (isBuiltin : Bool) (a : Nat)
    (h : (createWriter net p param c_EntityId_Unknown isBuiltin).1 = some a) :
    a = p.heap.length ∧
    (createWriter net p param c_EntityId_Unknown isBuiltin).2.entityIdAt a =
      some (entIdOf (writerKindOctet param.topicKind) (nextIdnum p param).1) := by
  cases hex : existsEntityId p (entIdOf (writerKindOctet param.topicKind) (nextIdnum p param).1)
      EndpointKind_t.WRITER with
  | true => rw [createWriter_auto_exists net p param isBuiltin hex] at h; exact absurd h (by simp)
  | false =>
    cases hv : (param.unicastLocatorList.all net.IsLocatorValid &&
        param.multicastLocatorList.all net.IsLocatorValid) with
    | false => rw [createWriter_auto_invalid net p param isBuiltin hv] at h; exact absurd h (by simp)
    | true =>
      rw [Bool.and_eq_true] at hv
      rw [createWriter_auto_fresh net p param isBuiltin hex hv.1 hv.2] at h ⊢
      obtain ⟨q, hq, heq⟩ := finishWriter_post net
        ((nextIdnum p param).2.alloc
          { m_guid := { guidP := (nextIdnum p param).2.m_guid.guidP,
                        entityId := entIdOf (writerKindOctet param.topicKind) (nextIdnum p param).1 },
            m_att := { param with endpointKind := EndpointKind_t.WRITER },
            trustedWriter := c_EntityId_Unknown }).2
        (nextIdnum p param).2.heap.length param isBuiltin
      rw [heq] at h ⊢
      have ha : a = (nextIdnum p param).2.heap.length := by simpa using h.symm
      have hlen : (nextIdnum p param).2.heap.length = p.heap.length := by
        unfold nextIdnum; split <;> rfl
      refine ⟨ha.trans hlen, ?_⟩
      simp only [registerWriter_entityIdAt, hq.2.2.2.2.1, ha]
      exact alloc_entityIdAt _ _


theorem createReader_auto_exists (net : Network) (p : Participant) (param : EndpointAttributes)
    (isBuiltin enable : Bool)
    (hex : existsEntityId p (entIdOf (readerKindOctet param.topicKind) (nextIdnum p param).1)
      EndpointKind_t.WRITER = true) :
    createReader net p param c_EntityId_Unknown isBuiltin enable =
      (none, (nextIdnum p param).2) := by
  simp only [createReader, if_true, nextIdnum_exists, hex]

theorem createReader_auto_fresh (net : Network) (p : Participant) (param : EndpointAttributes)
    (isBuiltin enable : Bool)
    (hex : existsEntityId p (entIdOf (readerKindOctet param.topicKind) (nextIdnum p param).1)
      EndpointKind_t.WRITER = false)
    (hu : param.unicastLocatorList.all net.IsLocatorValid = true)
    (hm : param.multicastLocatorList.all net.IsLocatorValid = true) :
    createReader net p param c_EntityId_Unknown isBuiltin enable =
      finishReader net
        ((nextIdnum p param).2.alloc
          { m_guid := { guidP := (nextIdnum p param).2.m_guid.guidP,
                        entityId := entIdOf (readerKindOctet param.topicKind) (nextIdnum p param).1 },
            m_att := { param with endpointKind := EndpointKind_t.READER },
            trustedWriter := c_EntityId_Unknown }).2
        (nextIdnum p param).2.heap.length param isBuiltin enable := by
  simp only [createReader, if_true, nextIdnum_exists, hex, hu, hm, Bool.not_true,
    Bool.false_eq_true, if_false]
  rfl

theorem createReader_auto_invalid (net : Network) (p : Participant) (param : EndpointAttributes)
    (isBuiltin enable : Bool)
    (hv : (param.unicastLocatorList.all net.IsLocatorValid &&
      param.multicastLocatorList.all net.IsLocatorValid) = false) :
    (createReader net p param c_EntityId_Unknown isBuiltin enable).1 = none := by
  simp only [createReader, if_true]
  rw [Bool.and_eq_false_iff] at hv
  split
  · rfl
  · rcases hv with hv | hv
    · simp [hv]
    · by_cases hu : param.unicastLocatorList.all net.IsLocatorValid = true
      · simp [hv, hu]
      · simp [hu]

/-- A successful `createReader` with an automatic id: the new reader sits at the
next heap address and carries the id built from `nextIdnum`. -/
theorem createReader_auto_some (net : Network) (p : Participant) (param : EndpointAttributes)
    (isBuiltin enable : Bool) (a : Nat)
    (h : (createReader net p param c_EntityId_Unknown isBuiltin enable).1 = some a) :
    a = p.heap.length ∧
    (createReader net p param c_EntityId_Unknown isBuiltin enable).2.entityIdAt a =
      some (entIdOf (readerKindOctet param.topicKind) (nextIdnum p param).1) := by
  cases hex : existsEntityId p (entIdOf (readerKindOctet param.topicKind) (nextIdnum p param).1)
      EndpointKind_t.WRITER with
  | true =>
    rw [createReader_auto_exists net p param isBuiltin enable hex] at h
    exact absurd h (by simp)
  | false =>
    cases hv : (param.unicastLocatorList.all net.IsLocatorValid &&
        param.multicastLocatorList.all net.IsLocatorValid) with
    | false =>
      rw [createReader_auto_invalid net p param isBuiltin enable hv] at h
      exact absurd h (by simp)
    | true =>
      rw [Bool.and_eq_true] at hv
      rw [createReader_auto_fresh net p param isBuiltin enable hex hv.1 hv.2] at h ⊢
      obtain ⟨q, hq, heq⟩ := finishReader_post net
        ((nextIdnum p param).2.alloc
          { m_guid := { guidP := (nextIdnum p param).2.m_guid.guidP,
                        entityId := entIdOf (readerKindOctet param.topicKind) (nextIdnum p param).1 },
            m_att := { param with endpointKind := EndpointKind_t.READER },
            trustedWriter := c_EntityId_Unknown }).2
        (nextIdnum p param).2.heap.length param isBuiltin enable
      rw [heq] at h ⊢
      have ha : a = (nextIdnum p param).2.heap.length := by simpa using h.symm
      have hlen : (nextIdnum p param).2.heap.length = p.heap.length := by
        unfold nextIdnum; split <;> rfl
      refine ⟨ha.trans hlen, ?_⟩
      simp only [registerReader_entityIdAt, hq.2.2.2.2.1, ha]
      exact alloc_entityIdAt _ _

/-! ## C1: duplicate entity ids -/

/-- C1, counterexample. On the participant constructed for `scenarioAtt`, a
first non-built-in writer created with the explicit id `scenarioId` is
registered in `m_userWriterList`; a second `createWriter` with the same explicit
id does not fail: it returns a writer and `m_userWriterList` then has two
elements, both carrying `scenarioId`. -/
theorem createWriter_explicit_duplicate_accepted :
    RTPSParticipantImpl_new scenarioNet 0 scenarioAtt [] = some scenarioParticipant ∧
    scenarioId ≠ c_EntityId_Unknown ∧
    (createWriter scenarioNet scenarioParticipant
      (plainParam ReliabilityKind_t.BEST_EFFORT TopicKind_t.NO_KEY) scenarioId false).1 = some 0 ∧
    existsEntityId
      (createWriter scenarioNet scenarioParticipant
        (plainParam ReliabilityKind_t.BEST_EFFORT TopicKind_t.NO_KEY) scenarioId false).2
      scenarioId EndpointKind_t.WRITER = true ∧
    (createWriter scenarioNet
      (createWriter scenarioNet scenarioParticipant
        (plainParam ReliabilityKind_t.BEST_EFFORT TopicKind_t.NO_KEY) scenarioId false).2
      (plainParam ReliabilityKind_t.BEST_EFFORT TopicKind_t.NO_KEY) scenarioId false).1 = some 1 ∧
    (createWriter scenarioNet
      (createWriter scenarioNet scenarioParticipant
        (plainParam ReliabilityKind_t.BEST_EFFORT TopicKind_t.NO_KEY) scenarioId false).2
      (plainParam ReliabilityKind_t.BEST_EFFORT TopicKind_t.NO_KEY) scenarioId false).2.m_userWriterList
      = [0, 1] := by
  decide

/-- C1, amended. The existence test guards automatic ids only. (1) When
`m_userWriterList` already holds a writer whose id equals the id derived for a
call with `entityId = c_EntityId_Unknown`, `createWriter` returns failure and
`m_userWriterList` is unchanged. (2) A call with an explicit id (not Unknown)
and valid locator lists succeeds whether or not the id is already present: the
new writer carries that id and, when not built-in, is appended to
`m_userWriterList`. (3) Hence two non-built-in creations with the same explicit
id from a state with no user writer leave `m_userWriterList` with 2 elements. -/
theorem createWriter_duplicate_check (net : Network) (p : Participant)
    (param : EndpointAttributes) (X : EntityId_t) (isBuiltin : Bool) :
    (existsEntityId p (entIdOf (writerKindOctet param.topicKind) (nextIdnum p param).1)
        EndpointKind_t.WRITER = true →
      (createWriter net p param c_EntityId_Unknown isBuiltin).1 = none ∧
      (createWriter net p param c_EntityId_Unknown isBuiltin).2.m_userWriterList =
        p.m_userWriterList) ∧
    (X ≠ c_EntityId_Unknown →
      param.unicastLocatorList.all net.IsLocatorValid = true →
      param.multicastLocatorList.all net.IsLocatorValid = true →
      (createWriter net p param X isBuiltin).1 = some p.heap.length ∧
      (createWriter net p param X isBuiltin).2.entityIdAt p.heap.length = some X ∧
      (createWriter net p param X isBuiltin).2.m_userWriterList =
        (if isBuiltin then p.m_userWriterList else p.m_userWriterList ++ [p.heap.length])) ∧
    (X ≠ c_EntityId_Unknown →
      param.unicastLocatorList.all net.IsLocatorValid = true →
      param.multicastLocatorList.all net.IsLocatorValid = true →
      p.m_userWriterList = [] →
      (createWriter net p param X false).1.isSome = true ∧
      (createWriter net (createWriter net p param X false).2 param X false).1.isSome = true ∧
      (createWriter net (createWriter net p param X false).2 param X false).2.m_userWriterList.length
        = 2) := by
  have key : ∀ (p : Participant) (b : Bool), X ≠ c_EntityId_Unknown →
      param.unicastLocatorList.all net.IsLocatorValid = true →
      param.multicastLocatorList.all net.IsLocatorValid = true →
      (createWriter net p param X b).1 = some p.heap.length ∧
      (createWriter net p param X b).2.entityIdAt p.heap.length = some X ∧
      (createWriter net p param X b).2.m_userWriterList =
        (if b then p.m_userWriterList else p.m_userWriterList ++ [p.heap.length]) := by
    intro p b hX hu hm
    rw [createWriter_explicit net p param X b hX hu hm]
    obtain ⟨q, hq, heq⟩ := finishWriter_post net
      (p.alloc { m_guid := { guidP := p.m_guid.guidP, entityId := X },
                 m_att := { param with endpointKind := EndpointKind_t.WRITER },
                 trustedWriter := c_EntityId_Unknown }).2 p.heap.length param b
    rw [heq]
    refine ⟨rfl, ?_, ?_⟩
    · simp only [registerWriter_entityIdAt, hq.2.2.2.2.1]
      exact alloc_entityIdAt p _
    · have h8 := hq.2.2.2.2.2.2.2.1
      cases b <;> simp [Participant.registerWriter, h8, Participant.alloc]
  refine ⟨?_, key p isBuiltin, ?_⟩
  · intro hex
    rw [createWriter_auto_exists net p param isBuiltin hex]
    exact ⟨rfl, nextIdnum_userWriters p param⟩
  · intro hX hu hm hempty
    obtain ⟨h1, -, h3⟩ := key p false hX hu hm
    obtain ⟨k1, -, k3⟩ := key (createWriter net p param X false).2 false hX hu hm
    refine ⟨by simp [h1], by simp [k1], ?_⟩
    rw [k3, h3, hempty]
    simp

/-- C1, witness of the amended statement on the scenario participant: part (1)
at a state that already holds the writer with the automatic id of the next call
(entity number 5), parts (2) and (3) at the explicit id `scenarioId`. -/
theorem createWriter_duplicate_check_witness :
    (existsEntityId
        (createWriter scenarioNet scenarioParticipant
          { plainParam ReliabilityKind_t.BEST_EFFORT TopicKind_t.NO_KEY with m_entityID := 5 }
          c_EntityId_Unknown false).2
        (entIdOf 0x03 5) EndpointKind_t.WRITER = true ∧
      (createWriter scenarioNet
        (createWriter scenarioNet scenarioParticipant
          { plainParam ReliabilityKind_t.BEST_EFFORT TopicKind_t.NO_KEY with m_entityID := 5 }
          c_EntityId_Unknown false).2
        { plainParam ReliabilityKind_t.BEST_EFFORT TopicKind_t.NO_KEY with m_entityID := 5 }
        c_EntityId_Unknown false).1 = none) ∧
    (createWriter scenarioNet scenarioParticipant
      (plainParam ReliabilityKind_t.BEST_EFFORT TopicKind_t.NO_KEY) scenarioId false).1 = some 0 ∧
    (createWriter scenarioNet
      (createWriter scenarioNet scenarioParticipant
        (plainParam ReliabilityKind_t.BEST_EFFORT TopicKind_t.NO_KEY) scenarioId false).2
      (plainParam ReliabilityKind_t.BEST_EFFORT TopicKind_t.NO_KEY) scenarioId
        false).2.m_userWriterList.length = 2 :=
  ⟨⟨by decide,
    ((createWriter_duplicate_check scenarioNet
      (createWriter scenarioNet scenarioParticipant
        { plainParam ReliabilityKind_t.BEST_EFFORT TopicKind_t.NO_KEY with m_entityID := 5 }
        c_EntityId_Unknown false).2
      { plainParam ReliabilityKind_t.BEST_EFFORT TopicKind_t.NO_KEY with m_entityID := 5 }
      scenarioId false).1 (by decide)).1⟩,
   ((createWriter_duplicate_check scenarioNet scenarioParticipant
      (plainParam ReliabilityKind_t.BEST_EFFORT TopicKind_t.NO_KEY) scenarioId false).2.1
      (by decide) (by decide) (by decide)).1,
   ((createWriter_duplicate_check scenarioNet scenarioParticipant
      (plainParam ReliabilityKind_t.BEST_EFFORT TopicKind_t.NO_KEY) scenarioId false).2.2
      (by decide) (by decide) (by decide) (by decide)).2.2⟩


/-! ## C2: octet 3 of an automatic id -/

/-- C2. Every successful `createWriter` or `createReader` call with
`entityId = c_EntityId_Unknown` gives the new endpoint an entity id whose
octet 3 is 0x03 (writer, NO_KEY), 0x02 (writer, WITH_KEY), 0x04 (reader,
NO_KEY) or 0x07 (reader, WITH_KEY), whatever the counter or the entity number
of the attributes. -/
theorem auto_id_kind_octet (net : Network) (p : Participant) (param : EndpointAttributes)
    (isBuiltin enable : Bool) (a : Nat) :
    ((createWriter net p param c_EntityId_Unknown isBuiltin).1 = some a →
      ((createWriter net p param c_EntityId_Unknown isBuiltin).2.entityIdAt a).map
          EntityId_t.value3 =
        some (match param.topicKind with
          | TopicKind_t.NO_KEY => 0x03
          | TopicKind_t.WITH_KEY => 0x02)) ∧
    ((createReader net p param c_EntityId_Unknown isBuiltin enable).1 = some a →
      ((createReader net p param c_EntityId_Unknown isBuiltin enable).2.entityIdAt a).map
          EntityId_t.value3 =
        some (match param.topicKind with
          | TopicKind_t.NO_KEY => 0x04
          | TopicKind_t.WITH_KEY => 0x07)) := by
  constructor
  · intro h
    rw [(createWriter_auto_some net p param isBuiltin a h).2]
    cases param.topicKind <;> rfl
  · intro h
    rw [(createReader_auto_some net p param isBuiltin enable a h).2]
    cases param.topicKind <;> rfl

/-- C2, witness: a keyed RELIABLE writer and an unkeyed BEST_EFFORT reader
created on the scenario participant get octet 3 equal to 0x02 and 0x04. -/
theorem auto_id_kind_octet_witness :
    ((createWriter scenarioNet scenarioParticipant
        (plainParam ReliabilityKind_t.RELIABLE TopicKind_t.WITH_KEY)
        c_EntityId_Unknown false).2.entityIdAt 0).map EntityId_t.value3 = some 0x02 ∧
    ((createReader scenarioNet scenarioParticipant
        (plainParam ReliabilityKind_t.BEST_EFFORT TopicKind_t.NO_KEY)
        c_EntityId_Unknown false true).2.entityIdAt 0).map EntityId_t.value3 = some 0x04 :=
  ⟨(auto_id_kind_octet scenarioNet scenarioParticipant
      (plainParam ReliabilityKind_t.RELIABLE TopicKind_t.WITH_KEY) false true 0).1 (by decide),
   (auto_id_kind_octet scenarioNet scenarioParticipant
      (plainParam ReliabilityKind_t.BEST_EFFORT TopicKind_t.NO_KEY) false true 0).2 (by decide)⟩

/-! ## C3: octets 0..2 of an automatic id -/

/-- C3, counterexample. On the participant constructed for `scenarioAtt`
(`IdCounter = 0`), a RELIABLE writer with `topicKind = WITH_KEY`, automatic id
and no entity number in its attributes is created with entity id
`[0x00, 0x00, 0x01, 0x02]`, not `[0x01, 0x00, 0x00, 0x02]`: octet 0 is not the
least significant byte of the id number. -/
theorem auto_id_first_keyed_writer :
    RTPSParticipantImpl_new scenarioNet 0 scenarioAtt [] = some scenarioParticipant ∧
    scenarioParticipant.IdCounter = 0 ∧
    (createWriter scenarioNet scenarioParticipant
      (plainParam ReliabilityKind_t.RELIABLE TopicKind_t.WITH_KEY) c_EntityId_Unknown false).1
      = some 0 ∧
    (createWriter scenarioNet scenarioParticipant
      (plainParam ReliabilityKind_t.RELIABLE TopicKind_t.WITH_KEY)
      c_EntityId_Unknown false).2.entityIdAt 0 = some ⟨0x00, 0x00, 0x01, 0x02⟩ ∧
    (createWriter scenarioNet scenarioParticipant
      (plainParam ReliabilityKind_t.RELIABLE TopicKind_t.WITH_KEY)
      c_EntityId_Unknown false).2.entityIdAt 0 ≠ some ⟨0x01, 0x00, 0x00, 0x02⟩ := by
  decide

/-- C3, amended. For every endpoint created with an automatic id, octets 0..2
hold the low 24 bits of the id number most significant byte first: octet 2 is
the least significant byte, octet 1 the next one and octet 0 the third one,
where the id number is the entity number of the attributes when that is
positive and else the incremented `IdCounter` (both as `uint32`). In
particular, with `IdCounter = 0`, no entity number and `topicKind = WITH_KEY`,
a created writer has entity id `[0x00, 0x00, 0x01, 0x02]`. -/
theorem auto_id_octets (net : Network) (p : Participant) (param : EndpointAttributes)
    (isBuiltin enable : Bool) (a : Nat) (e : EntityId_t)
    (h : ((createWriter net p param c_EntityId_Unknown isBuiltin).1 = some a ∧
          (createWriter net p param c_EntityId_Unknown isBuiltin).2.entityIdAt a = some e) ∨
        ((createReader net p param c_EntityId_Unknown isBuiltin enable).1 = some a ∧
          (createReader net p param c_EntityId_Unknown isBuiltin enable).2.entityIdAt a = some e)) :
    e.value2 = (if param.m_entityID > 0 then param.m_entityID.toNat % 2 ^ 32
      else (p.IdCounter + 1) % 2 ^ 32) % 256 ∧
    e.value1 = (if param.m_entityID > 0 then param.m_entityID.toNat % 2 ^ 32
      else (p.IdCounter + 1) % 2 ^ 32) / 256 % 256 ∧
    e.value0 = (if param.m_entityID > 0 then param.m_entityID.toNat % 2 ^ 32
      else (p.IdCounter + 1) % 2 ^ 32) / 65536 % 256 ∧
    (p.IdCounter = 0 → param.m_entityID ≤ 0 → param.topicKind = TopicKind_t.WITH_KEY →
      (createWriter net p param c_EntityId_Unknown isBuiltin).1 = some a →
      (createWriter net p param c_EntityId_Unknown isBuiltin).2.entityIdAt a = some e →
      e = ⟨0x00, 0x00, 0x01, 0x02⟩) := by
  have hn : (nextIdnum p param).1 = (if param.m_entityID > 0 then param.m_entityID.toNat % 2 ^ 32
      else (p.IdCounter + 1) % 2 ^ 32) := by
    unfold nextIdnum UINT32
    split <;> rfl
  have he : ∃ k, e = entIdOf k (nextIdnum p param).1 := by
    rcases h with ⟨h1, h2⟩ | ⟨h1, h2⟩
    · rw [(createWriter_auto_some net p param isBuiltin a h1).2] at h2
      exact ⟨_, (Option.some.inj h2).symm⟩
    · rw [(createReader_auto_some net p param isBuiltin enable a h1).2] at h2
      exact ⟨_, (Option.some.inj h2).symm⟩
  refine ⟨?_, ?_, ?_, ?_⟩
  · obtain ⟨k, rfl⟩ := he
    rw [← hn]
    simp [entIdOf, octetOf]
  · obtain ⟨k, rfl⟩ := he
    rw [← hn]
    simp [entIdOf, octetOf]
  · obtain ⟨k, rfl⟩ := he
    rw [← hn]
    simp [entIdOf, octetOf]
  · intro h0 hE hT h1 h2
    rw [(createWriter_auto_some net p param isBuiltin a h1).2] at h2
    rw [← Option.some.inj h2, hn, if_neg (not_lt.mpr hE), h0, hT]
    rfl

/-- C3, witness: the first keyed RELIABLE writer of the scenario participant
is created, its id is `[0x00, 0x00, 0x01, 0x02]`, and octets 2, 1, 0 are the
three low bytes of the id number 1. -/
theorem auto_id_octets_witness :
    ((createWriter scenarioNet scenarioParticipant
        (plainParam ReliabilityKind_t.RELIABLE TopicKind_t.WITH_KEY) c_EntityId_Unknown false).1
        = some 0 ∧
      (createWriter scenarioNet scenarioParticipant
        (plainParam ReliabilityKind_t.RELIABLE TopicKind_t.WITH_KEY)
        c_EntityId_Unknown false).2.entityIdAt 0 = some ⟨0x00, 0x00, 0x01, 0x02⟩) ∧
    ((⟨0x00, 0x00, 0x01, 0x02⟩ : EntityId_t).value2 = 1 % 256 ∧
      (⟨0x00, 0x00, 0x01, 0x02⟩ : EntityId_t).value1 = 1 / 256 % 256 ∧
      (⟨0x00, 0x00, 0x01, 0x02⟩ : EntityId_t).value0 = 1 / 65536 % 256) ∧
    (scenarioParticipant.IdCounter = 0 ∧
      (plainParam ReliabilityKind_t.RELIABLE TopicKind_t.WITH_KEY).m_entityID ≤ 0 ∧
      (⟨0x00, 0x00, 0x01, 0x02⟩ : EntityId_t) = ⟨0x00, 0x00, 0x01, 0x02⟩) :=
  ⟨⟨by decide, by decide⟩,
   ⟨(auto_id_octets scenarioNet scenarioParticipant
      (plainParam ReliabilityKind_t.RELIABLE TopicKind_t.WITH_KEY) false false 0
      ⟨0x00, 0x00, 0x01, 0x02⟩ (Or.inl ⟨by decide, by decide⟩)).1,
    (auto_id_octets scenarioNet scenarioParticipant
      (plainParam ReliabilityKind_t.RELIABLE TopicKind_t.WITH_KEY) false false 0
      ⟨0x00, 0x00, 0x01, 0x02⟩ (Or.inl ⟨by decide, by decide⟩)).2.1,
    (auto_id_octets scenarioNet scenarioParticipant
      (plainParam ReliabilityKind_t.RELIABLE TopicKind_t.WITH_KEY) false false 0
      ⟨0x00, 0x00, 0x01, 0x02⟩ (Or.inl ⟨by decide, by decide⟩)).2.2.1⟩,
   ⟨by decide, by decide,
    (auto_id_octets scenarioNet scenarioParticipant
      (plainParam ReliabilityKind_t.RELIABLE TopicKind_t.WITH_KEY) false false 0
      ⟨0x00, 0x00, 0x01, 0x02⟩ (Or.inl ⟨by decide, by decide⟩)).2.2.2
      (by decide) (by decide) (by decide) (by decide) (by decide)⟩⟩


/-! ## The automatic default unicast locator (first block of the constructor) -/

/-- The port field is a `uint32`. With `portBase = 7400`, `domainIDGain = 250`,
`offsetd3 = 3`, `participantIDGain = 2`, both default listening lists empty,
`participantID = 0` and `domainId = 17179870`, the sum
`portBase + domainIDGain * domainId + offsetd3 + participantIDGain * participantID`
is 4294974903, but the port of the automatic default unicast locator is 7607:
the `uint32` port field holds the sum modulo `2 ^ 32`. -/
theorem default_port_wraps :
    (portAtt 17179870 0).defaultUnicastLocatorList = [] ∧
    (portAtt 17179870 0).defaultMulticastLocatorList = [] ∧
    (addDefaultLocators (portAtt 17179870 0)).defaultUnicastLocatorList =
      [{ kind := LOCATOR_KIND_UDPv4, port := 7607, address := List.replicate 16 0 }] ∧
    7400 + 250 * 17179870 + 3 + 2 * 0 = 4294974903 ∧
    (defaultUnicastLocator (portAtt 17179870 0)).port ≠ 7400 + 250 * 17179870 + 3 + 2 * 0 := by
  decide

/-- The first block of the constructor (`addDefaultLocators`, lines 107-119),
taken alone: when both default listening lists are empty it puts exactly one
locator on the default unicast list; it has kind UDPv4 and its port is `portBase + domainIDGain * domainId + offsetd3 +
participantIDGain * participantID` reduced modulo `2 ^ 32`, which is the sum
itself whenever the sum is below `2 ^ 32`; with `portBase = 7400`,
`domainIDGain = 250`, `offsetd3 = 3`, `participantIDGain = 2` the port is 7403
for (domainId 0, participantID 0) and 7657 for (domainId 1, participantID 2). -/
theorem default_unicast_locator (m_att : RTPSParticipantAttributes)
    (hu : m_att.defaultUnicastLocatorList = []) (hm : m_att.defaultMulticastLocatorList = []) :
    (∃ loc, (addDefaultLocators m_att).defaultUnicastLocatorList = [loc] ∧
      loc.kind = LOCATOR_KIND_UDPv4 ∧
      loc.port = (m_att.port.portBase + m_att.port.domainIDGain * m_att.builtin.domainId +
        m_att.port.offsetd3 + m_att.port.participantIDGain * m_att.participantID) % 2 ^ 32 ∧
      (m_att.port.portBase + m_att.port.domainIDGain * m_att.builtin.domainId +
          m_att.port.offsetd3 + m_att.port.participantIDGain * m_att.participantID < 2 ^ 32 →
        loc.port = m_att.port.portBase + m_att.port.domainIDGain * m_att.builtin.domainId +
          m_att.port.offsetd3 + m_att.port.participantIDGain * m_att.participantID)) ∧
    (defaultUnicastLocator (portAtt 0 0)).port = 7403 ∧
    (defaultUnicastLocator (portAtt 1 2)).port = 7657 := by
  refine ⟨⟨defaultUnicastLocator m_att, ?_, rfl, rfl, ?_⟩, by decide, by decide⟩
  · simp [addDefaultLocators, hu, hm]
  · intro h
    exact Nat.mod_eq_of_lt h

/-- The first block of the constructor at domain 1, participant 2: the default
unicast list becomes one UDPv4 locator on port 7657. -/
theorem default_unicast_locator_witness :
    ∃ loc, (addDefaultLocators (portAtt 1 2)).defaultUnicastLocatorList = [loc] ∧
      loc.kind = LOCATOR_KIND_UDPv4 ∧ loc.port = 7657 := by
  obtain ⟨⟨loc, h1, h2, h3, -⟩, -, -⟩ :=
    default_unicast_locator (portAtt 1 2) (by decide) (by decide)
  exact ⟨loc, h1, h2, h3.trans (by decide)⟩

/-! ## C6: adaptation of an unavailable default unicast locator -/

theorem adaptWhile_no_items (net : Network) (fuel : Nat) (loc : Locator_t)
    (buf : List ReceiverResource) : adaptWhile net [] fuel loc buf = none := by
  induction fuel generalizing loc buf with
  | zero => rfl
  | succ n ih => simp [adaptWhile, ih]

/-- The constructor's adaptation loop does not finish, whatever the bound and
the factory, as soon as there is a default unicast locator to build. -/
theorem construction_does_not_finish (net : Network) (fuel : Nat)
    (PParam : RTPSParticipantAttributes) (guidP : List Nat)
    (h : (addDefaultLocators PParam).defaultUnicastLocatorList ≠ []) :
    RTPSParticipantImpl_new net fuel PParam guidP = none := by
  have hb : buildDefaultReceivers net fuel (addDefaultLocators PParam).defaultUnicastLocatorList
      [] [] = none := by
    cases hd : (addDefaultLocators PParam).defaultUnicastLocatorList with
    | nil => exact absurd hd h
    | cons it rest => simp [buildDefaultReceivers, adaptWhile_no_items]
  simp only [RTPSParticipantImpl_new, hb]

/-- C6, the code at the failing input. With `defaultUnicastLocatorList =
[UDPv4:7403]` and a factory that builds nothing for port 7403 and one receiver
for port 7413 (which is what one application of the adaptation rule reaches),
the constructor does not terminate: for every bound on the number of loop
rounds the adaptation loop is still running, so no participant with default
unicast list `[UDPv4:7413]` and one receiver control block is produced. -/
theorem construction_adapt_loop_diverges :
    scenarioNet.BuildReceiverResources (udp4 7403) = [] ∧
    applyLocatorAdaptRule (udp4 7403) = udp4 7413 ∧
    scenarioNet.BuildReceiverResources (udp4 7413) = [⟨1⟩] ∧
    ∀ fuel guidP, RTPSParticipantImpl_new scenarioNet fuel adaptAtt guidP = none :=
  ⟨by decide, by decide, by decide,
    fun fuel guidP => construction_does_not_finish scenarioNet fuel adaptAtt guidP (by decide)⟩


/-! ## C8, C9: endpoint deletion -/

/-- C8, the code at the failing input. A non-built-in BEST_EFFORT writer is
created on the scenario participant (address 0, registered in both
`m_userWriterList` and `m_allWriterList`); `deleteUserEndpoint` on it returns
`true`, erases it from `m_userWriterList` and destroys the object, but
`m_allWriterList` still holds its address. -/
theorem deleteUserEndpoint_keeps_all_index :
    (createWriter scenarioNet scenarioParticipant
      (plainParam ReliabilityKind_t.BEST_EFFORT TopicKind_t.NO_KEY) c_EntityId_Unknown false).1
      = some 0 ∧
    (createWriter scenarioNet scenarioParticipant
      (plainParam ReliabilityKind_t.BEST_EFFORT TopicKind_t.NO_KEY)
      c_EntityId_Unknown false).2.m_userWriterList = [0] ∧
    (createWriter scenarioNet scenarioParticipant
      (plainParam ReliabilityKind_t.BEST_EFFORT TopicKind_t.NO_KEY)
      c_EntityId_Unknown false).2.m_allWriterList = [0] ∧
    (deleteUserEndpoint
      (createWriter scenarioNet scenarioParticipant
        (plainParam ReliabilityKind_t.BEST_EFFORT TopicKind_t.NO_KEY)
        c_EntityId_Unknown false).2 0).1 = true ∧
    (deleteUserEndpoint
      (createWriter scenarioNet scenarioParticipant
        (plainParam ReliabilityKind_t.BEST_EFFORT TopicKind_t.NO_KEY)
        c_EntityId_Unknown false).2 0).2.m_userWriterList = [] ∧
    (deleteUserEndpoint
      (createWriter scenarioNet scenarioParticipant
        (plainParam ReliabilityKind_t.BEST_EFFORT TopicKind_t.NO_KEY)
        c_EntityId_Unknown false).2 0).2.deref 0 = none ∧
    (deleteUserEndpoint
      (createWriter scenarioNet scenarioParticipant
        (plainParam ReliabilityKind_t.BEST_EFFORT TopicKind_t.NO_KEY)
        c_EntityId_Unknown false).2 0).2.m_allWriterList = [0] := by
  decide

/-- C9, the code at the failing input. A non-built-in RELIABLE writer created
on the scenario participant (address 0) is bound to the receiver control block
built for the default multicast locator; `deleteUserEndpoint` on it returns
`true` and destroys the object, but the block's `AssociatedWriters` still holds
address 0: the removal loops run over `m_listenResourceList`, not over the
receiver list. -/
theorem deleteUserEndpoint_leaves_block_association :
    (createWriter scenarioNet scenarioParticipant
      (plainParam ReliabilityKind_t.RELIABLE TopicKind_t.NO_KEY) c_EntityId_Unknown false).1
      = some 0 ∧
    (createWriter scenarioNet scenarioParticipant
      (plainParam ReliabilityKind_t.RELIABLE TopicKind_t.NO_KEY)
      c_EntityId_Unknown false).2.m_receiverResourcelist.map
        (fun b => (b.Receiver, b.AssociatedWriters, b.AssociatedReaders)) = [(⟨1⟩, [0], [])] ∧
    (deleteUserEndpoint
      (createWriter scenarioNet scenarioParticipant
        (plainParam ReliabilityKind_t.RELIABLE TopicKind_t.NO_KEY)
        c_EntityId_Unknown false).2 0).1 = true ∧
    (deleteUserEndpoint
      (createWriter scenarioNet scenarioParticipant
        (plainParam ReliabilityKind_t.RELIABLE TopicKind_t.NO_KEY)
        c_EntityId_Unknown false).2 0).2.deref 0 = none ∧
    (deleteUserEndpoint
      (createWriter scenarioNet scenarioParticipant
        (plainParam ReliabilityKind_t.RELIABLE TopicKind_t.NO_KEY)
        c_EntityId_Unknown false).2 0).2.m_receiverResourcelist.map
        (fun b => (b.Receiver, b.AssociatedWriters, b.AssociatedReaders)) = [(⟨1⟩, [0], [])] := by
  decide

/-! ## C10: sender resources -/

/-- The sender pool is the same before and after `createSendResources`,
whatever the factory builds. -/
theorem createSendResources_pool_unchanged (net : Network) (p : Participant) (pend : Nat) :
    (createSendResources net p pend).1 = true ∧
    (createSendResources net p pend).2.m_senderResource = p.m_senderResource := by
  rw [createSendResources_state]
  exact ⟨rfl, rfl⟩

/-- C10, the code at the failing input. A RELIABLE writer with
`outLocatorList = [UDPv4:7000]` is created on the scenario participant; the
factory builds one sender for that locator, and this sender supports it, yet
after `createWriter` (which runs `createSendResources`) and after one more
direct `createSendResources` the sender pool is empty. -/
theorem createSendResources_drops_new_senders :
    scenarioNet.BuildSenderResources (udp4 7000) = [⟨7000⟩] ∧
    scenarioNet.SenderSupportsLocator ⟨7000⟩ (udp4 7000) = true ∧
    (createWriter scenarioNet scenarioParticipant
      { plainParam ReliabilityKind_t.RELIABLE TopicKind_t.NO_KEY with
        outLocatorList := [udp4 7000] } c_EntityId_Unknown false).1 = some 0 ∧
    (createWriter scenarioNet scenarioParticipant
      { plainParam ReliabilityKind_t.RELIABLE TopicKind_t.NO_KEY with
        outLocatorList := [udp4 7000] } c_EntityId_Unknown false).2.m_senderResource = [] ∧
    (createSendResources scenarioNet
      (createWriter scenarioNet scenarioParticipant
        { plainParam ReliabilityKind_t.RELIABLE TopicKind_t.NO_KEY with
          outLocatorList := [udp4 7000] } c_EntityId_Unknown false).2 0).2.m_senderResource
      = [] := by
  decide


/-! ## C4: automatic ids along a sequence of creations -/

theorem be24_entIdOf (k n : Nat) : be24 (entIdOf k n) = n % 2 ^ 24 := by
  simp only [be24, entIdOf, octetOf]
  norm_num
  omega

theorem nextIdnum_counter (p : Participant) (param : EndpointAttributes)
    (h : param.m_entityID ≤ 0) :
    (nextIdnum p param).1 = (p.IdCounter + 1) % 2 ^ 32 ∧
    (nextIdnum p param).2.IdCounter = (p.IdCounter + 1) % 2 ^ 32 := by
  unfold nextIdnum UINT32
  rw [if_neg (not_lt.mpr h)]
  exact ⟨rfl, rfl⟩

theorem createWriter_auto_counter (net : Network) (p : Participant) (param : EndpointAttributes)
    (isBuiltin : Bool) :
    (createWriter net p param c_EntityId_Unknown isBuiltin).2.IdCounter =
      (nextIdnum p param).2.IdCounter := by
  cases hex : existsEntityId p (entIdOf (writerKindOctet param.topicKind) (nextIdnum p param).1)
      EndpointKind_t.WRITER with
  | true => rw [createWriter_auto_exists net p param isBuiltin hex]
  | false =>
    by_cases hu : param.unicastLocatorList.all net.IsLocatorValid = true
    · by_cases hm : param.multicastLocatorList.all net.IsLocatorValid = true
      · rw [createWriter_auto_fresh net p param isBuiltin hex hu hm]
        obtain ⟨q, hq, heq⟩ := finishWriter_post net
          ((nextIdnum p param).2.alloc
            { m_guid := { guidP := (nextIdnum p param).2.m_guid.guidP,
                          entityId := entIdOf (writerKindOctet param.topicKind) (nextIdnum p param).1 },
              m_att := { param with endpointKind := EndpointKind_t.WRITER },
              trustedWriter := c_EntityId_Unknown }).2
          (nextIdnum p param).2.heap.length param isBuiltin
        rw [heq]
        exact hq.2.2.1
      · simp [createWriter, nextIdnum_exists, hex, hu, hm]
    · simp [createWriter, nextIdnum_exists, hex, hu]

theorem createReader_auto_counter (net : Network) (p : Participant) (param : EndpointAttributes)
    (isBuiltin enable : Bool) :
    (createReader net p param c_EntityId_Unknown isBuiltin enable).2.IdCounter =
      (nextIdnum p param).2.IdCounter := by
  cases hex : existsEntityId p (entIdOf (readerKindOctet param.topicKind) (nextIdnum p param).1)
      EndpointKind_t.WRITER with
  | true => rw [createReader_auto_exists net p param isBuiltin enable hex]
  | false =>
    by_cases hu : param.unicastLocatorList.all net.IsLocatorValid = true
    · by_cases hm : param.multicastLocatorList.all net.IsLocatorValid = true
      · rw [createReader_auto_fresh net p param isBuiltin enable hex hu hm]
        obtain ⟨q, hq, heq⟩ := finishReader_post net
          ((nextIdnum p param).2.alloc
            { m_guid := { guidP := (nextIdnum p param).2.m_guid.guidP,
                          entityId := entIdOf (readerKindOctet param.topicKind) (nextIdnum p param).1 },
              m_att := { param with endpointKind := EndpointKind_t.READER },
              trustedWriter := c_EntityId_Unknown }).2
          (nextIdnum p param).2.heap.length param isBuiltin enable
        rw [heq]
        exact hq.2.2.1
      · simp [createReader, nextIdnum_exists, hex, hu, hm]
    · simp [createReader, nextIdnum_exists, hex, hu]

/-- One creation call without an entity number advances the counter by one
(modulo `2 ^ 32`), whether it succeeds or not. -/
theorem createAuto_counter (net : Network) (p : Participant) (c : CreateCall)
    (h : c.param.m_entityID ≤ 0) :
    (createAuto net p c).2.IdCounter = (p.IdCounter + 1) % 2 ^ 32 := by
  cases c with
  | writer param isBuiltin =>
    exact (createWriter_auto_counter net p param isBuiltin).trans (nextIdnum_counter p param h).2
  | reader param isBuiltin enable =>
    exact (createReader_auto_counter net p param isBuiltin enable).trans
      (nextIdnum_counter p param h).2

/-- The id assigned by one creation call without an entity number. -/
theorem assignedId_eq (net : Network) (p : Participant) (c : CreateCall) (e : EntityId_t)
    (h : c.param.m_entityID ≤ 0) (he : assignedId net p c = some e) :
    e = entIdOf c.kindOctet ((p.IdCounter + 1) % 2 ^ 32) := by
  unfold assignedId at he
  cases c with
  | writer param isBuiltin =>
    cases h1 : (createAuto net p (CreateCall.writer param isBuiltin)).1 with
    | none => rw [h1] at he; exact absurd he (by simp)
    | some a =>
      rw [h1] at he
      have h2 := (createWriter_auto_some net p param isBuiltin a h1).2
      simp only [Option.some_bind, createAuto] at he
      rw [h2, (nextIdnum_counter p param h).1] at he
      exact (Option.some.inj he).symm
  | reader param isBuiltin enable =>
    cases h1 : (createAuto net p (CreateCall.reader param isBuiltin enable)).1 with
    | none => rw [h1] at he; exact absurd he (by simp)
    | some a =>
      rw [h1] at he
      have h2 := (createReader_auto_some net p param isBuiltin enable a h1).2
      simp only [Option.some_bind, createAuto] at he
      rw [h2, (nextIdnum_counter p param h).1] at he
      exact (Option.some.inj he).symm

theorem createAll_length (net : Network) (p : Participant) (calls : List CreateCall) :
    (createAll net p calls).1.length = calls.length := by
  induction calls generalizing p with
  | nil => rfl
  | cons c rest ih => simp [createAll, ih]

/-- The id assigned by the call of index `i` in a sequence of creation calls
without entity numbers is built from the id number `IdCounter + i + 1`
(modulo `2 ^ 32`). -/
theorem createAll_id (net : Network) (p : Participant) (calls : List CreateCall)
    (hnum : ∀ c ∈ calls, c.param.m_entityID ≤ 0) (i : Nat) (e : EntityId_t)
    (he : (createAll net p calls).1[i]? = some (some e)) :
    ∃ k, e = entIdOf k ((p.IdCounter + i + 1) % 2 ^ 32) := by
  induction calls generalizing p i with
  | nil => simp [createAll] at he
  | cons c rest ih =>
    have hc : c.param.m_entityID ≤ 0 := hnum c (List.mem_cons_self _ _)
    cases i with
    | zero =>
      simp only [createAll, List.getElem?_cons_zero, Option.some.injEq] at he
      exact ⟨_, assignedId_eq net p c e hc he⟩
    | succ i =>
      simp only [createAll, List.getElem?_cons_succ] at he
      obtain ⟨k, hk⟩ := ih (createAuto net p c).2
        (fun c2 h2 => hnum c2 (List.mem_cons_of_mem _ h2)) i he
      refine ⟨k, ?_⟩
      rw [hk, createAuto_counter net p c hc]
      congr 1
      omega


/-- A built-in writer without entity number and with valid locator lists is
always created when `m_userWriterList` is empty, and leaves that list empty. -/
theorem createWriter_builtin_step (net : Network) (p : Participant) (param : EndpointAttributes)
    (hu : param.unicastLocatorList.all net.IsLocatorValid = true)
    (hm : param.multicastLocatorList.all net.IsLocatorValid = true)
    (hempty : p.m_userWriterList = []) :
    (createWriter net p param c_EntityId_Unknown true).1 = some p.heap.length ∧
    (createWriter net p param c_EntityId_Unknown true).2.m_userWriterList = [] := by
  have hex : existsEntityId p (entIdOf (writerKindOctet param.topicKind) (nextIdnum p param).1)
      EndpointKind_t.WRITER = false := by
    simp [existsEntityId, hempty]
  rw [createWriter_auto_fresh net p param true hex hu hm]
  obtain ⟨q, hq, heq⟩ := finishWriter_post net
    ((nextIdnum p param).2.alloc
      { m_guid := { guidP := (nextIdnum p param).2.m_guid.guidP,
                    entityId := entIdOf (writerKindOctet param.topicKind) (nextIdnum p param).1 },
        m_att := { param with endpointKind := EndpointKind_t.WRITER },
        trustedWriter := c_EntityId_Unknown }).2
    (nextIdnum p param).2.heap.length param true
  rw [heq]
  have hlen : (nextIdnum p param).2.heap.length = p.heap.length := by
    unfold nextIdnum; split <;> rfl
  refine ⟨by simp [hlen], ?_⟩
  have h8 := hq.2.2.2.2.2.2.2.1
  simp only [Participant.registerWriter, Bool.not_true, Bool.false_eq_true, if_false, h8]
  simp [Participant.alloc, nextIdnum_userWriters, hempty]

/-- In a run of `n` creations of the same built-in writer (no entity number,
valid locator lists) from a state without user writers, every call succeeds and
the call of index `i` gets the id built from `IdCounter + i + 1` modulo
`2 ^ 32`. -/
theorem createAll_builtin_writers (net : Network) (param : EndpointAttributes)
    (hu : param.unicastLocatorList.all net.IsLocatorValid = true)
    (hm : param.multicastLocatorList.all net.IsLocatorValid = true)
    (hnum : param.m_entityID ≤ 0) (n : Nat) (p : Participant)
    (hempty : p.m_userWriterList = []) (i : Nat) (hi : i < n) :
    (createAll net p (List.replicate n (CreateCall.writer param true))).1[i]? =
      some (some (entIdOf (writerKindOctet param.topicKind) ((p.IdCounter + i + 1) % 2 ^ 32))) := by
  induction n generalizing p i with
  | zero => exact absurd hi (Nat.not_lt_zero _)
  | succ n ih =>
    obtain ⟨h1, h2⟩ := createWriter_builtin_step net p param hu hm hempty
    rw [List.replicate_succ]
    cases i with
    | zero =>
      simp only [createAll, List.getElem?_cons_zero, Option.some.injEq]
      unfold assignedId
      simp only [createAuto, h1, Option.some_bind]
      rw [(createWriter_auto_some net p param true _ h1).2, (nextIdnum_counter p param hnum).1]
    | succ i =>
      simp only [createAll, List.getElem?_cons_succ]
      rw [ih (createAuto net p (CreateCall.writer param true)).2 h2 i (Nat.lt_of_succ_lt_succ hi),
        createAuto_counter net p (CreateCall.writer param true) hnum]
      congr 3
      omega

/-- C4, counterexample. On the constructed scenario participant, a run of
`2 ^ 24` creations of a BEST_EFFORT built-in writer with automatic id and no
entity number: (1) the calls of index 254 and 255 get octets 0..2 equal to
`[0, 0, 255]` and `[0, 1, 0]`, so with octet 0 read as least significant byte
(the layout the specification gives) the later value 256 is smaller than the
earlier value 16711680; (2) the calls of index `2 ^ 24 - 2` and `2 ^ 24 - 1` get
octets `[255, 255, 255]` and `[0, 0, 0]`, so the later call receives the
smallest value there is, in any byte order. -/
theorem auto_ids_not_increasing :
    RTPSParticipantImpl_new scenarioNet 0 scenarioAtt [] = some scenarioParticipant ∧
    ((createAll scenarioNet scenarioParticipant
        (List.replicate 16777216
          (CreateCall.writer (plainParam ReliabilityKind_t.BEST_EFFORT TopicKind_t.NO_KEY)
            true))).1[254]? = some (some ⟨0, 0, 255, 0x03⟩) ∧
      (createAll scenarioNet scenarioParticipant
        (List.replicate 16777216
          (CreateCall.writer (plainParam ReliabilityKind_t.BEST_EFFORT TopicKind_t.NO_KEY)
            true))).1[255]? = some (some ⟨0, 1, 0, 0x03⟩) ∧
      le24 ⟨0, 1, 0, 0x03⟩ < le24 ⟨0, 0, 255, 0x03⟩) ∧
    ((createAll scenarioNet scenarioParticipant
        (List.replicate 16777216
          (CreateCall.writer (plainParam ReliabilityKind_t.BEST_EFFORT TopicKind_t.NO_KEY)
            true))).1[16777214]? = some (some ⟨255, 255, 255, 0x03⟩) ∧
      (createAll scenarioNet scenarioParticipant
        (List.replicate 16777216
          (CreateCall.writer (plainParam ReliabilityKind_t.BEST_EFFORT TopicKind_t.NO_KEY)
            true))).1[16777215]? = some (some ⟨0, 0, 0, 0x03⟩) ∧
      be24 ⟨0, 0, 0, 0x03⟩ < be24 ⟨255, 255, 255, 0x03⟩ ∧
      le24 ⟨0, 0, 0, 0x03⟩ < le24 ⟨255, 255, 255, 0x03⟩) := by
  have key := createAll_builtin_writers scenarioNet
    (plainParam ReliabilityKind_t.BEST_EFFORT TopicKind_t.NO_KEY) (by decide) (by decide)
    (by decide) 16777216 scenarioParticipant rfl
  refine ⟨by decide, ⟨?_, ?_, by decide⟩, ⟨?_, ?_, by decide, by decide⟩⟩
  · exact (key 254 (by decide)).trans (by decide)
  · exact (key 255 (by decide)).trans (by decide)
  · exact (key 16777214 (by decide)).trans (by decide)
  · exact (key 16777215 (by decide)).trans (by decide)

/-- C4, amended. In every sequence of creations with automatic id and no
entity number (writers and readers share `IdCounter`) that keeps the counter
below `2 ^ 24`, the number held in octets 0..2 of an assigned id, octet 0 most
significant, is `IdCounter + i + 1` for the call of index `i`; hence a later
call always gets a strictly greater number than an earlier one. -/
theorem auto_ids_increase (net : Network) (p : Participant) (calls : List CreateCall)
    (hnum : ∀ c ∈ calls, c.param.m_entityID ≤ 0)
    (hbound : p.IdCounter + calls.length < 2 ^ 24)
    (i j : Nat) (ei ej : EntityId_t) (hij : i < j)
    (hi : (createAll net p calls).1[i]? = some (some ei))
    (hj : (createAll net p calls).1[j]? = some (some ej)) :
    be24 ei = p.IdCounter + i + 1 ∧ be24 ej = p.IdCounter + j + 1 ∧ be24 ei < be24 ej := by
  have hjlen : j < calls.length := by
    have := (List.getElem?_eq_some_iff.mp hj).1
    rwa [createAll_length] at this
  obtain ⟨ki, hki⟩ := createAll_id net p calls hnum i ei hi
  obtain ⟨kj, hkj⟩ := createAll_id net p calls hnum j ej hj
  have e1 : be24 ei = p.IdCounter + i + 1 := by
    rw [hki, be24_entIdOf]
    omega
  have e2 : be24 ej = p.IdCounter + j + 1 := by
    rw [hkj, be24_entIdOf]
    omega
  exact ⟨e1, e2, by omega⟩

/-- C4, witness: a writer then a reader created on the scenario participant get
the numbers 1 and 2 in octets 0..2. -/
theorem auto_ids_increase_witness :
    be24 ⟨0, 0, 1, 0x03⟩ = 0 + 0 + 1 ∧ be24 ⟨0, 0, 2, 0x04⟩ = 0 + 1 + 1 ∧
    be24 ⟨0, 0, 1, 0x03⟩ < be24 ⟨0, 0, 2, 0x04⟩ :=
  auto_ids_increase scenarioNet scenarioParticipant
    [CreateCall.writer (plainParam ReliabilityKind_t.BEST_EFFORT TopicKind_t.NO_KEY) false,
     CreateCall.reader (plainParam ReliabilityKind_t.BEST_EFFORT TopicKind_t.NO_KEY) false true]
    (by decide) (by decide) 0 1 ⟨0, 0, 1, 0x03⟩ ⟨0, 0, 2, 0x04⟩ (by decide) (by decide) (by decide)


/-! ## C7: endpoints and receiver control blocks -/

theorem forall₂_exists_right {α : Type} {R : α → α → Prop} {l l2 : List α}
    (h : List.Forall₂ R l l2) (P Q : α → Prop) (hPQ : ∀ a b, R a b → P a → Q b) :
    (∃ a ∈ l, P a) → ∃ b ∈ l2, Q b := by
  induction h with
  | nil => rintro ⟨a, ha, -⟩; exact absurd ha (List.not_mem_nil a)
  | cons hab _ ih =>
    rintro ⟨a, ha, hP⟩
    rcases List.mem_cons.mp ha with rfl | ha
    · exact ⟨_, List.mem_cons_self _ _, hPQ _ _ hab hP⟩
    · obtain ⟨b, hb, hQ⟩ := ih ⟨a, ha, hP⟩
      exact ⟨b, List.mem_cons_of_mem _ hb, hQ⟩

theorem forall₂_exists_left {α : Type} {R : α → α → Prop} {l l2 : List α}
    (h : List.Forall₂ R l l2) (P Q : α → Prop) (hPQ : ∀ a b, R a b → Q b → P a) :
    (∃ b ∈ l2, Q b) → ∃ a ∈ l, P a := by
  induction h with
  | nil => rintro ⟨a, ha, -⟩; exact absurd ha (List.not_mem_nil a)
  | cons hab _ ih =>
    rintro ⟨b, hb, hQ⟩
    rcases List.mem_cons.mp hb with rfl | hb
    · exact ⟨_, List.mem_cons_self _ _, hPQ _ _ hab hQ⟩
    · obtain ⟨a, ha, hP⟩ := ih ⟨b, hb, hQ⟩
      exact ⟨a, List.mem_cons_of_mem _ ha, hP⟩

theorem blockGrows_refl (b : ReceiverControlBlock) : BlockGrows b b :=
  ⟨rfl, List.prefix_refl _, List.prefix_refl _⟩

theorem blockGrows_trans {a b c : ReceiverControlBlock} (h1 : BlockGrows a b)
    (h2 : BlockGrows b c) : BlockGrows a c :=
  ⟨h2.1.trans h1.1, h1.2.1.trans h2.2.1, h1.2.2.trans h2.2.2⟩

theorem blocksGrow_refl (bs : List ReceiverControlBlock) : List.Forall₂ BlockGrows bs bs := by
  induction bs with
  | nil => exact List.Forall₂.nil
  | cons b bs ih => exact List.Forall₂.cons (blockGrows_refl b) ih

theorem blocksGrow_trans {l1 l2 l3 : List ReceiverControlBlock}
    (h1 : List.Forall₂ BlockGrows l1 l2) (h2 : List.Forall₂ BlockGrows l2 l3) :
    List.Forall₂ BlockGrows l1 l3 := by
  induction h1 generalizing l3 with
  | nil => cases h2; exact List.Forall₂.nil
  | cons hab _ ih =>
    cases h2 with
    | cons hbc h2 => exact List.Forall₂.cons (blockGrows_trans hab hbc) (ih h2)

theorem foundIn_mono (p : Participant) {l l2 : List Nat} (h : l <+: l2) (ent : Option EntityId_t)
    (hf : foundIn p l ent = true) : foundIn p l2 ent = true := by
  obtain ⟨t, rfl⟩ := h
  simp only [foundIn, List.any_append, Bool.or_eq_true] at hf ⊢
  exact Or.inl hf

theorem holdsIdOf_mono (p : Participant) {b b2 : ReceiverControlBlock} (h : BlockGrows b b2)
    (a : Nat) (hb : holdsIdOf p b a = true) : holdsIdOf p b2 a = true := by
  unfold holdsIdOf at hb ⊢
  cases hk : p.kindAt a with
  | none => rw [hk] at hb; exact absurd hb (by simp)
  | some k =>
    rw [hk] at hb
    cases k with
    | READER => exact foundIn_mono p h.2.2 _ hb
    | WRITER => exact foundIn_mono p h.2.1 _ hb

theorem holdsIdOf_congr (p q : Participant) (b : ReceiverControlBlock) (a : Nat)
    (hid : ∀ x, q.entityIdAt x = p.entityIdAt x) (hk : q.kindAt a = p.kindAt a) :
    holdsIdOf q b a = holdsIdOf p b a := by
  have hf : ∀ l ent, foundIn q l ent = foundIn p l ent := by
    intro l ent
    simp only [foundIn, hid]
  simp only [holdsIdOf, hk, hf, hid]

theorem supportsSome_grows (net : Network) {b b2 : ReceiverControlBlock} (h : BlockGrows b b2)
    (l : LocatorList_t) : supportsSome net b2 l = supportsSome net b l := by
  simp only [supportsSome, h.1]

/-- A scan of the receiver list that changes a block: the blocks only grow and
a block that supports the locator now has the endpoint. -/
theorem assignInBlocks_some (net : Network) (p : Participant) (endp : Nat) (lit : Locator_t)
    (bs bs2 : List ReceiverControlBlock) (h : assignInBlocks net p endp lit bs = some bs2) :
    List.Forall₂ BlockGrows bs bs2 ∧
    ∃ b ∈ bs2, net.ReceiverSupportsLocator b.Receiver lit = true ∧ holdsIdOf p b endp = true := by
  induction bs generalizing bs2 with
  | nil => simp [assignInBlocks] at h
  | cons b bs ih =>
    have rec_case : (assignInBlocks net p endp lit bs).map (fun bs3 => b :: bs3) = some bs2 →
        List.Forall₂ BlockGrows (b :: bs) bs2 ∧
        ∃ b3 ∈ bs2, net.ReceiverSupportsLocator b3.Receiver lit = true ∧
          holdsIdOf p b3 endp = true := by
      intro hr
      cases hrec : assignInBlocks net p endp lit bs with
      | none => rw [hrec] at hr; exact absurd hr (by simp)
      | some bs3 =>
        rw [hrec] at hr
        obtain ⟨g, b3, hb3, hs, hh⟩ := ih bs3 hrec
        have : bs2 = b :: bs3 := by simpa using hr.symm
        subst this
        exact ⟨List.Forall₂.cons (blockGrows_refl b) g, b3, List.mem_cons_of_mem _ hb3, hs, hh⟩
    unfold assignInBlocks at h
    by_cases hs : net.ReceiverSupportsLocator b.Receiver lit = true
    · rw [if_pos hs] at h
      cases hk : (p.deref endp).map (fun e => e.m_att.endpointKind) with
      | none => rw [hk] at h; exact rec_case h
      | some k =>
        rw [hk] at h
        cases k with
        | WRITER =>
          by_cases hf : foundIn p b.AssociatedWriters (p.entityIdAt endp) = true
          · simp only [hf, if_true] at h
            exact rec_case h
          · simp only [hf, if_false, Option.some.injEq, Bool.false_eq_true] at h
            subst h
            refine ⟨List.Forall₂.cons ⟨rfl, List.prefix_append _ _, List.prefix_refl _⟩
              (blocksGrow_refl bs), _, List.mem_cons_self _ _, hs, ?_⟩
            have hk2 : p.kindAt endp = some EndpointKind_t.WRITER := hk
            simp [holdsIdOf, hk2, foundIn]
        | READER =>
          by_cases hf : foundIn p b.AssociatedReaders (p.entityIdAt endp) = true
          · simp only [hf, if_true] at h
            exact rec_case h
          · simp only [hf, if_false, Option.some.injEq, Bool.false_eq_true] at h
            subst h
            refine ⟨List.Forall₂.cons ⟨rfl, List.prefix_refl _, List.prefix_append _ _⟩
              (blocksGrow_refl bs), _, List.mem_cons_self _ _, hs, ?_⟩
            have hk2 : p.kindAt endp = some EndpointKind_t.READER := hk
            simp [holdsIdOf, hk2, foundIn]
    · rw [if_neg hs] at h
      exact rec_case h

/-- A scan of the receiver list that changes nothing: every block that supports
the locator already has an entry with the endpoint's id. -/
theorem assignInBlocks_none (net : Network) (p : Participant) (endp : Nat) (lit : Locator_t)
    (bs : List ReceiverControlBlock) (hlive : p.kindAt endp ≠ none)
    (h : assignInBlocks net p endp lit bs = none) :
    ∀ b ∈ bs, net.ReceiverSupportsLocator b.Receiver lit = true → holdsIdOf p b endp = true := by
  induction bs with
  | nil => intro b hb; exact absurd hb (List.not_mem_nil b)
  | cons b bs ih =>
    unfold assignInBlocks at h
    have rec_none : (assignInBlocks net p endp lit bs).map (fun bs3 => b :: bs3) = none →
        assignInBlocks net p endp lit bs = none := by
      intro hr
      cases hrec : assignInBlocks net p endp lit bs with
      | none => rfl
      | some bs3 => rw [hrec] at hr; exact absurd hr (by simp)
    intro b2 hb2 hs2
    rcases List.mem_cons.mp hb2 with rfl | hb2
    · rw [if_pos hs2] at h
      cases hk : (p.deref endp).map (fun e => e.m_att.endpointKind) with
      | none => exact absurd hk hlive
      | some k =>
        rw [hk] at h
        have hk2 : p.kindAt endp = some k := hk
        cases k with
        | WRITER =>
          by_cases hf : foundIn p b2.AssociatedWriters (p.entityIdAt endp) = true
          · simp [holdsIdOf, hk2, hf]
          · simp [hf] at h
        | READER =>
          by_cases hf : foundIn p b2.AssociatedReaders (p.entityIdAt endp) = true
          · simp [holdsIdOf, hk2, hf]
          · simp [hf] at h
    · apply ih _ b2 hb2 hs2
      by_cases hs : net.ReceiverSupportsLocator b.Receiver lit = true
      · rw [if_pos hs] at h
        cases hk : (p.deref endp).map (fun e => e.m_att.endpointKind) with
        | none => exact absurd hk hlive
        | some k =>
          rw [hk] at h
          cases k with
          | WRITER =>
            by_cases hf : foundIn p b.AssociatedWriters (p.entityIdAt endp) = true
            · simp only [hf, if_true] at h
              exact rec_none h
            · simp [hf] at h
          | READER =>
            by_cases hf : foundIn p b.AssociatedReaders (p.entityIdAt endp) = true
            · simp only [hf, if_true] at h
              exact rec_none h
            · simp [hf] at h
      · rw [if_neg hs] at h
        exact rec_none h


theorem assignLoop_grows (net : Network) (p : Participant) (endp : Nat) (list : LocatorList_t) :
    List.Forall₂ BlockGrows p.m_receiverResourcelist (assignLoop net p endp list) := by
  induction list with
  | nil => exact blocksGrow_refl _
  | cons lit rest ih =>
    unfold assignLoop
    cases h : assignInBlocks net p endp lit p.m_receiverResourcelist with
    | none => exact ih
    | some bs2 => exact (assignInBlocks_some net p endp lit _ bs2 h).1

/-- After `assignEndpoint2LocatorList`, if some block supports a locator of the
list, then some block that supports a locator of the list has an entry with the
endpoint's id. -/
theorem assignLoop_covers (net : Network) (p : Participant) (endp : Nat) (list : LocatorList_t)
    (hlive : p.kindAt endp ≠ none)
    (h : ∃ b ∈ p.m_receiverResourcelist, supportsSome net b list = true) :
    ∃ b ∈ assignLoop net p endp list,
      supportsSome net b list = true ∧ holdsIdOf p b endp = true := by
  induction list with
  | nil =>
    obtain ⟨b, -, hb⟩ := h
    simp [supportsSome] at hb
  | cons lit rest ih =>
    unfold assignLoop
    cases ha : assignInBlocks net p endp lit p.m_receiverResourcelist with
    | some bs2 =>
      obtain ⟨-, b, hb, hs, hh⟩ := assignInBlocks_some net p endp lit _ bs2 ha
      exact ⟨b, hb, by simp [supportsSome, hs], hh⟩
    | none =>
      simp only []
      obtain ⟨b, hb, hs⟩ := h
      simp only [supportsSome, List.any_cons, Bool.or_eq_true] at hs
      rcases hs with hs | hs
      · have hh := assignInBlocks_none net p endp lit _ hlive ha b hb hs
        exact forall₂_exists_right (assignLoop_grows net p endp rest)
          (fun x => supportsSome net x (lit :: rest) = true ∧ holdsIdOf p x endp = true)
          (fun x => supportsSome net x (lit :: rest) = true ∧ holdsIdOf p x endp = true)
          (fun x y hxy hx => by
            beta_reduce at hx ⊢
            refine ⟨?_, holdsIdOf_mono p hxy endp hx.2⟩
            rw [supportsSome_grows net hxy]
            exact hx.1)
          ⟨b, hb, by simp [supportsSome, hs], hh⟩
      · obtain ⟨b2, hb2, hs2, hh2⟩ := ih ⟨b, hb, hs⟩
        refine ⟨b2, hb2, ?_, hh2⟩
        simp only [supportsSome, List.any_cons, Bool.or_eq_true]
        exact Or.inr hs2

theorem deref_setAttributes_same (p : Participant) (a : Nat)
    (f : EndpointAttributes → EndpointAttributes) :
    (p.setAttributes a f).deref a = (p.deref a).map (fun e => { e with m_att := f e.m_att }) := by
  unfold Participant.setAttributes Participant.deref
  simp only [List.getElem?_modify]
  cases h : p.heap[a]? with
  | none => simp
  | some o => cases o <;> simp

theorem kindAt_setAttributes (p : Participant) (a : Nat)
    (f : EndpointAttributes → EndpointAttributes)
    (hf : ∀ x, (f x).endpointKind = x.endpointKind) :
    (p.setAttributes a f).kindAt a = p.kindAt a := by
  unfold Participant.kindAt
  rw [deref_setAttributes_same]
  cases p.deref a with
  | none => rfl
  | some e => simp [hf]

theorem supportsSome_append (net : Network) (b : ReceiverControlBlock) (U M : LocatorList_t) :
    supportsSome net b (U ++ M) = (supportsSome net b U || supportsSome net b M) := by
  simp [supportsSome, List.any_append]

/-- The state after `assignEndpointListenResources`, for a live endpoint: the
endpoint's lists are the bound lists, and if some block supports one of them
then some supporting block has an entry with the endpoint's id. -/
theorem bind_covers (net : Network) (p : Participant) (endp : Nat) (isBuiltin : Bool)
    (hlive : p.kindAt endp ≠ none)
    (h : someBlockSupports net (assignEndpointListenResources net p endp isBuiltin).2 endp = true) :
    boundThroughBlock net (assignEndpointListenResources net p endp isBuiltin).2 endp = true := by
  rw [assignELR_eq] at h ⊢
  simp only [] at h ⊢
  generalize hU : (bindLists p endp isBuiltin).1 = U at h ⊢
  generalize hM : (bindLists p endp isBuiltin).2 = M at h ⊢
  -- the intermediate states
  generalize hp1 : (p.withReceivers (assignLoop net p endp U)).setAttributes endp
    (fun a => { a with unicastLocatorList := U }) = p1 at h ⊢
  generalize hq : (p1.withReceivers (assignLoop net p1 endp M)).setAttributes endp
    (fun a => { a with multicastLocatorList := M }) = q at h ⊢
  have hk1 : p1.kindAt endp = p.kindAt endp := by
    rw [← hp1]
    exact kindAt_setAttributes (p.withReceivers (assignLoop net p endp U)) endp
      (fun a => { a with unicastLocatorList := U }) (fun _ => rfl)
  have hkq : q.kindAt endp = p.kindAt endp := by
    rw [← hq, ← hk1]
    exact kindAt_setAttributes (p1.withReceivers (assignLoop net p1 endp M)) endp
      (fun a => { a with multicastLocatorList := M }) (fun _ => rfl)
  have hid1 : ∀ x, p1.entityIdAt x = p.entityIdAt x := by
    intro x
    rw [← hp1, setAttributes_entityIdAt]
    rfl
  have hidq : ∀ x, q.entityIdAt x = p.entityIdAt x := by
    intro x
    rw [← hq, setAttributes_entityIdAt, ← hid1 x]
    rfl
  have hR1 : p1.m_receiverResourcelist = assignLoop net p endp U := by rw [← hp1]; rfl
  have hRq : q.m_receiverResourcelist = assignLoop net p1 endp M := by rw [← hq]; rfl
  have hin : inboundLocators q endp = U ++ M := by
    have hd : q.deref endp = (p.deref endp).map (fun e =>
        { e with m_att := { e.m_att with unicastLocatorList := U, multicastLocatorList := M } }) := by
      rw [← hq, deref_setAttributes_same]
      have : (p1.withReceivers (assignLoop net p1 endp M)).deref endp = p1.deref endp := rfl
      rw [this, ← hp1, deref_setAttributes_same]
      have : (p.withReceivers (assignLoop net p endp U)).deref endp = p.deref endp := rfl
      rw [this]
      cases p.deref endp <;> rfl
    unfold inboundLocators
    rw [hd]
    cases hde : p.deref endp with
    | none => exact absurd (by simp [Participant.kindAt, hde]) hlive
    | some e => rfl
  have g1 := assignLoop_grows net p endp U
  have g2 : List.Forall₂ BlockGrows p1.m_receiverResourcelist q.m_receiverResourcelist := by
    rw [hRq]; exact assignLoop_grows net p1 endp M
  rw [← hR1] at g1
  simp only [someBlockSupports, boundThroughBlock, hin, List.any_eq_true, Bool.and_eq_true] at h ⊢
  obtain ⟨bq, hbq, hsq⟩ := h
  rw [supportsSome_append, Bool.or_eq_true] at hsq
  rcases hsq with hsU | hsM
  · -- a unicast locator is supported: the first binding step covers it
    have hp : ∃ b ∈ p.m_receiverResourcelist, supportsSome net b U = true :=
      forall₂_exists_left (blocksGrow_trans g1 g2)
        (fun x => supportsSome net x U = true) (fun x => supportsSome net x U = true)
        (fun x y hxy hy => (supportsSome_grows net hxy _).symm.trans hy) ⟨bq, hbq, hsU⟩
    obtain ⟨b1, hb1, hs1, hh1⟩ := assignLoop_covers net p endp U hlive hp
    rw [← hR1] at hb1
    exact forall₂_exists_right g2
      (fun x => supportsSome net x U = true ∧ holdsIdOf p x endp = true)
      (fun x => holdsIdOf q x endp = true ∧ supportsSome net x (U ++ M) = true)
      (fun x y hxy hx => by
        beta_reduce at hx ⊢
        refine ⟨?_, ?_⟩
        · rw [holdsIdOf_congr p q y endp hidq hkq]
          exact holdsIdOf_mono p hxy endp hx.2
        · rw [supportsSome_append, supportsSome_grows net hxy, hx.1]
          rfl)
      ⟨b1, hb1, hs1, hh1⟩
  · -- a multicast locator is supported: the second binding step covers it
    have hp : ∃ b ∈ p1.m_receiverResourcelist, supportsSome net b M = true :=
      forall₂_exists_left g2
        (fun x => supportsSome net x M = true) (fun x => supportsSome net x M = true)
        (fun x y hxy hy => (supportsSome_grows net hxy _).symm.trans hy) ⟨bq, hbq, hsM⟩
    have hlive1 : p1.kindAt endp ≠ none := by rw [hk1]; exact hlive
    obtain ⟨b2, hb2, hs2, hh2⟩ := assignLoop_covers net p1 endp M hlive1 hp
    rw [← hRq] at hb2
    refine ⟨b2, hb2, ?_, ?_⟩
    · rw [holdsIdOf_congr p1 q b2 endp (fun x => (hidq x).trans (hid1 x).symm) (hkq.trans hk1.symm)]
      exact hh2
    · rw [supportsSome_append, hs2]
      simp


theorem launchThreads_any (blocks : List ReceiverControlBlock) (f : ReceiverControlBlock → Bool)
    (hf : ∀ b : ReceiverControlBlock, f { b with mp_thread := true } = f b) :
    (launchThreads blocks).any f = blocks.any f := by
  induction blocks with
  | nil => rfl
  | cons b bs ih =>
    simp only [launchThreads, List.map_cons, List.any_cons] at ih ⊢
    rw [ih]
    by_cases h : b.mp_thread = false
    · rw [if_pos h, hf]
    · rw [if_neg h]

/-- Coverage after `createAndAssociateReceiverswithEndpoint` for a live endpoint. -/
theorem createAndAssociate_covers (net : Network) (p : Participant) (pend : Nat) (isBuiltIn : Bool)
    (hlive : p.kindAt pend ≠ none)
    (h : someBlockSupports net
      (createAndAssociateReceiverswithEndpoint net p pend isBuiltIn).2 pend = true) :
    boundThroughBlock net
      (createAndAssociateReceiverswithEndpoint net p pend isBuiltIn).2 pend = true := by
  unfold createAndAssociateReceiverswithEndpoint at h ⊢
  simp only [] at h ⊢
  generalize hp1 : p.withReceivers _ = p1 at h ⊢
  have hlive1 : p1.kindAt pend ≠ none := by rw [← hp1]; exact hlive
  have hb := bind_covers net p1 pend isBuiltIn hlive1
  generalize (assignEndpointListenResources net p1 pend isBuiltIn).2 = p2 at h hb ⊢
  have e1 : someBlockSupports net (p2.withReceivers (launchThreads p2.m_receiverResourcelist)) pend
      = someBlockSupports net p2 pend :=
    launchThreads_any p2.m_receiverResourcelist _ (fun _ => rfl)
  have e2 : boundThroughBlock net (p2.withReceivers (launchThreads p2.m_receiverResourcelist)) pend
      = boundThroughBlock net p2 pend :=
    launchThreads_any p2.m_receiverResourcelist _ (fun _ => rfl)
  rw [e2]
  rw [e1] at h
  exact hb h

/-- Either `createWriter` fails or it is `finishWriter` run on a state in which
the new address holds a live writer. -/
theorem createWriter_cases (net : Network) (p : Participant) (param : EndpointAttributes)
    (entityId : EntityId_t) (isBuiltin : Bool) :
    (createWriter net p param entityId isBuiltin).1 = none ∨
    ∃ P a, P.kindAt a = some EndpointKind_t.WRITER ∧
      createWriter net p param entityId isBuiltin = finishWriter net P a param isBuiltin := by
  unfold createWriter
  simp only []
  split
  · exact Or.inl rfl
  · rename_i entId p1 _
    by_cases hu : param.unicastLocatorList.all net.IsLocatorValid = true
    · by_cases hm : param.multicastLocatorList.all net.IsLocatorValid = true
      · refine Or.inr ⟨_, _, ?_, by simp only [hu, hm, Bool.not_true, Bool.false_eq_true, if_false]; rfl⟩
        simp [Participant.alloc, Participant.kindAt, Participant.deref]
      · exact Or.inl (by simp [hu, hm])
    · exact Or.inl (by simp [hu])

/-- Either `createReader` fails or it is `finishReader` run on a state in which
the new address holds a live reader. -/
theorem createReader_cases (net : Network) (p : Participant) (param : EndpointAttributes)
    (entityId : EntityId_t) (isBuiltin enable : Bool) :
    (createReader net p param entityId isBuiltin enable).1 = none ∨
    ∃ P a, P.kindAt a = some EndpointKind_t.READER ∧
      createReader net p param entityId isBuiltin enable =
        finishReader net P a param isBuiltin enable := by
  unfold createReader
  simp only []
  split
  · exact Or.inl rfl
  · rename_i entId p1 _
    by_cases hu : param.unicastLocatorList.all net.IsLocatorValid = true
    · by_cases hm : param.multicastLocatorList.all net.IsLocatorValid = true
      · refine Or.inr ⟨_, _, ?_, by simp only [hu, hm, Bool.not_true, Bool.false_eq_true, if_false]; rfl⟩
        simp [Participant.alloc, Participant.kindAt, Participant.deref]
      · exact Or.inl (by simp [hu, hm])
    · exact Or.inl (by simp [hu])

theorem kindAt_setTrustedWriter (p : Participant) (a b : Nat) (w : EntityId_t) :
    (p.setTrustedWriter a w).kindAt b = p.kindAt b := by
  unfold Participant.setTrustedWriter Participant.kindAt Participant.deref
  simp only [List.getElem?_modify]
  cases h : p.heap[b]? with
  | none => simp
  | some o =>
    by_cases hab : a = b
    · cases o <;> simp [hab]
    · simp [hab]


/-- Binding matches by entity id. Right after the operations that bind an endpoint — a
successful `createWriter` of a RELIABLE writer, a successful `createReader` with
`enable = true`, and `enableReader` on a live reader — if some receiver control
block supports a locator of the endpoint's inbound (unicast or multicast) lists,
then some block that supports such a locator holds, in the associated set of
the endpoint's kind, an entry with the endpoint's entity id (the endpoint
itself unless an entry with that id was already there). -/
theorem bound_endpoint_covered (net : Network) (p : Participant) (param : EndpointAttributes)
    (entityId : EntityId_t) (isBuiltin : Bool) (a : Nat) :
    (param.reliabilityKind = ReliabilityKind_t.RELIABLE →
      (createWriter net p param entityId isBuiltin).1 = some a →
      someBlockSupports net (createWriter net p param entityId isBuiltin).2 a = true →
      boundThroughBlock net (createWriter net p param entityId isBuiltin).2 a = true) ∧
    ((createReader net p param entityId isBuiltin true).1 = some a →
      someBlockSupports net (createReader net p param entityId isBuiltin true).2 a = true →
      boundThroughBlock net (createReader net p param entityId isBuiltin true).2 a = true) ∧
    (p.kindAt a ≠ none →
      someBlockSupports net (enableReader net p a isBuiltin).2 a = true →
      boundThroughBlock net (enableReader net p a isBuiltin).2 a = true) := by
  refine ⟨?_, ?_, ?_⟩
  · intro hrel hsome hsup
    rcases createWriter_cases net p param entityId isBuiltin with hnone | ⟨P, w, hk, heq⟩
    · rw [hnone] at hsome; exact absurd hsome (by simp)
    · rw [heq, finishWriter_eq, if_pos hrel] at hsome hsup ⊢
      have ha : w = a := by simpa using hsome
      subst ha
      exact createAndAssociate_covers net P w isBuiltin (by rw [hk]; simp) hsup
  · intro hsome hsup
    rcases createReader_cases net p param entityId isBuiltin true with hnone | ⟨P, r, hk, heq⟩
    · rw [hnone] at hsome; exact absurd hsome (by simp)
    · rw [heq, finishReader_eq, if_pos rfl] at hsome hsup ⊢
      have ha : r = a := by simpa using hsome
      subst ha
      refine createAndAssociate_covers net _ r isBuiltin ?_ hsup
      split
      · rw [kindAt_setTrustedWriter, hk]; simp
      · rw [hk]; simp
  · intro hlive hsup
    have he : (enableReader net p a isBuiltin).2 = (assignEndpointListenResources net p a isBuiltin).2 := by
      unfold enableReader
      simp only []
      split <;> rfl
    rw [he] at hsup ⊢
    exact bind_covers net p a isBuiltin hlive hsup

/-- Binding by entity id on the scenario participant: a RELIABLE writer, an enabled
reader, and a reader created with `enable = false` and then passed to
`enableReader` (after the writer opened the block for UDPv4:7413) are each bound
to the block that supports their multicast locator. -/
theorem bound_endpoint_covered_witness :
    boundThroughBlock scenarioNet
      (createWriter scenarioNet scenarioParticipant
        (plainParam ReliabilityKind_t.RELIABLE TopicKind_t.NO_KEY) c_EntityId_Unknown false).2 0
      = true ∧
    boundThroughBlock scenarioNet
      (createReader scenarioNet scenarioParticipant
        (plainParam ReliabilityKind_t.BEST_EFFORT TopicKind_t.NO_KEY) c_EntityId_Unknown false
        true).2 0 = true ∧
    boundThroughBlock scenarioNet
      (enableReader scenarioNet
        (createReader scenarioNet
          (createWriter scenarioNet scenarioParticipant
            (plainParam ReliabilityKind_t.RELIABLE TopicKind_t.NO_KEY) c_EntityId_Unknown false).2
          (plainParam ReliabilityKind_t.BEST_EFFORT TopicKind_t.NO_KEY) c_EntityId_Unknown false
          false).2 1 false).2 1 = true :=
  ⟨(bound_endpoint_covered scenarioNet scenarioParticipant
      (plainParam ReliabilityKind_t.RELIABLE TopicKind_t.NO_KEY) c_EntityId_Unknown false 0).1
      (by decide) (by decide) (by decide),
   (bound_endpoint_covered scenarioNet scenarioParticipant
      (plainParam ReliabilityKind_t.BEST_EFFORT TopicKind_t.NO_KEY) c_EntityId_Unknown false 0).2.1
      (by decide) (by decide),
   (bound_endpoint_covered scenarioNet
      (createReader scenarioNet
        (createWriter scenarioNet scenarioParticipant
          (plainParam ReliabilityKind_t.RELIABLE TopicKind_t.NO_KEY) c_EntityId_Unknown false).2
        (plainParam ReliabilityKind_t.BEST_EFFORT TopicKind_t.NO_KEY) c_EntityId_Unknown false
        false).2
      (plainParam ReliabilityKind_t.BEST_EFFORT TopicKind_t.NO_KEY) c_EntityId_Unknown false 1).2.2
      (by decide) (by decide)⟩

/-! ## C11: trusted writers -/

/-- C11. `TrustedWriter` maps the SPDP reader to the SPDP writer, the SEDP
publications reader to the SEDP publications writer, the SEDP subscriptions
reader to the SEDP subscriptions writer, the liveliness reader to the liveliness
writer, and every other entity id to `c_EntityId_Unknown`; two different
built-in readers of these four get different trusted writers, and a built-in
reader created by `createReader` with one of these ids carries that trusted
writer. -/
theorem trustedWriter_pairings :
    TrustedWriter c_EntityId_SPDPReader = c_EntityId_SPDPWriter ∧
    TrustedWriter c_EntityId_SEDPPubReader = c_EntityId_SEDPPubWriter ∧
    TrustedWriter c_EntityId_SEDPSubReader = c_EntityId_SEDPSubWriter ∧
    TrustedWriter c_EntityId_ReaderLiveliness = c_EntityId_WriterLiveliness ∧
    (∀ r, r ≠ c_EntityId_SPDPReader → r ≠ c_EntityId_SEDPPubReader →
      r ≠ c_EntityId_SEDPSubReader → r ≠ c_EntityId_ReaderLiveliness →
      TrustedWriter r = c_EntityId_Unknown) ∧
    (∀ r1 r2,
      r1 ∈ [c_EntityId_SPDPReader, c_EntityId_SEDPPubReader, c_EntityId_SEDPSubReader,
        c_EntityId_ReaderLiveliness] →
      r2 ∈ [c_EntityId_SPDPReader, c_EntityId_SEDPPubReader, c_EntityId_SEDPSubReader,
        c_EntityId_ReaderLiveliness] →
      r1 ≠ r2 → TrustedWriter r1 ≠ TrustedWriter r2) := by
  refine ⟨by decide, by decide, by decide, by decide, ?_, ?_⟩
  · intro r h1 h2 h3 h4
    simp [TrustedWriter, h1, h2, h3, h4]
  · intro r1 r2 h1 h2 hne
    simp only [List.mem_cons, List.mem_singleton, List.not_mem_nil, or_false] at h1 h2
    rcases h1 with rfl | rfl | rfl | rfl <;> rcases h2 with rfl | rfl | rfl | rfl <;>
      first
        | exact absurd rfl hne
        | decide

/-- C11, witness: an ordinary user id has no trusted writer, the SPDP and the
liveliness readers have different ones, and the built-in SEDP publications
reader created on the scenario participant trusts the SEDP publications
writer. -/
theorem trustedWriter_pairings_witness :
    TrustedWriter ⟨0x00, 0x00, 0x01, 0x04⟩ = c_EntityId_Unknown ∧
    TrustedWriter c_EntityId_SPDPReader ≠ TrustedWriter c_EntityId_ReaderLiveliness ∧
    ((createReader scenarioNet scenarioParticipant
        (plainParam ReliabilityKind_t.RELIABLE TopicKind_t.WITH_KEY) c_EntityId_SEDPPubReader
        true false).2.deref 0).map Endpoint.trustedWriter = some c_EntityId_SEDPPubWriter :=
  ⟨trustedWriter_pairings.2.2.2.2.1 ⟨0x00, 0x00, 0x01, 0x04⟩
      (by decide) (by decide) (by decide) (by decide),
   trustedWriter_pairings.2.2.2.2.2 c_EntityId_SPDPReader c_EntityId_ReaderLiveliness
      (by decide) (by decide) (by decide),
   by decide⟩

/-! ## C12: invalid locators -/

/-- With an invalid locator in one of the two lists, `createWriter` returns
failure in a state that differs from the starting one in `IdCounter` at most. -/
theorem createWriter_invalid (net : Network) (p : Participant) (param : EndpointAttributes)
    (entityId : EntityId_t) (isBuiltin : Bool)
    (hv : (param.unicastLocatorList.all net.IsLocatorValid &&
      param.multicastLocatorList.all net.IsLocatorValid) = false) :
    ∃ c, createWriter net p param entityId isBuiltin = (none, { p with IdCounter := c }) := by
  have hn : ∃ c, (nextIdnum p param).2 = { p with IdCounter := c } := by
    unfold nextIdnum
    split
    · exact ⟨p.IdCounter, rfl⟩
    · exact ⟨_, rfl⟩
  obtain ⟨c, hc⟩ := hn
  rw [Bool.and_eq_false_iff] at hv
  unfold createWriter
  simp only []
  split
  · rename_i p1 heq
    split at heq
    · split at heq
      · refine ⟨c, ?_⟩
        rw [← hc]
        simp only [Prod.mk.injEq, true_and] at heq
        rw [heq]
      · simp at heq
    · simp at heq
  · rename_i entId p1 heq
    have hp1 : ∃ c, p1 = { p with IdCounter := c } := by
      split at heq
      · split at heq
        · simp at heq
        · simp only [Prod.mk.injEq, Option.some.injEq] at heq
          exact ⟨c, by rw [← heq.2, hc]⟩
      · simp only [Prod.mk.injEq, Option.some.injEq] at heq
        exact ⟨p.IdCounter, by rw [← heq.2]⟩
    obtain ⟨c1, rfl⟩ := hp1
    refine ⟨c1, ?_⟩
    rcases hv with hv | hv
    · simp [hv]
    · by_cases hu : param.unicastLocatorList.all net.IsLocatorValid = true
      · simp [hv, hu]
      · simp [hu]

/-- With an invalid locator in one of the two lists, `createReader` returns
failure in a state that differs from the starting one in `IdCounter` at most. -/
theorem createReader_invalid (net : Network) (p : Participant) (param : EndpointAttributes)
    (entityId : EntityId_t) (isBuiltin enable : Bool)
    (hv : (param.unicastLocatorList.all net.IsLocatorValid &&
      param.multicastLocatorList.all net.IsLocatorValid) = false) :
    ∃ c, createReader net p param entityId isBuiltin enable =
      (none, { p with IdCounter := c }) := by
  have hn : ∃ c, (nextIdnum p param).2 = { p with IdCounter := c } := by
    unfold nextIdnum
    split
    · exact ⟨p.IdCounter, rfl⟩
    · exact ⟨_, rfl⟩
  obtain ⟨c, hc⟩ := hn
  rw [Bool.and_eq_false_iff] at hv
  unfold createReader
  simp only []
  split
  · rename_i p1 heq
    split at heq
    · split at heq
      · refine ⟨c, ?_⟩
        rw [← hc]
        simp only [Prod.mk.injEq, true_and] at heq
        rw [heq]
      · simp at heq
    · simp at heq
  · rename_i entId p1 heq
    have hp1 : ∃ c, p1 = { p with IdCounter := c } := by
      split at heq
      · split at heq
        · simp at heq
        · simp only [Prod.mk.injEq, Option.some.injEq] at heq
          exact ⟨c, by rw [← heq.2, hc]⟩
      · simp only [Prod.mk.injEq, Option.some.injEq] at heq
        exact ⟨p.IdCounter, by rw [← heq.2]⟩
    obtain ⟨c1, rfl⟩ := hp1
    refine ⟨c1, ?_⟩
    rcases hv with hv | hv
    · simp [hv]
    · by_cases hu : param.unicastLocatorList.all net.IsLocatorValid = true
      · simp [hv, hu]
      · simp [hu]

/-- C12. If some locator of the attributes' `unicastLocatorList` or
`multicastLocatorList` is not valid, `createWriter` and `createReader` return
failure and create no endpoint: the heap, `m_allWriterList`, `m_allReaderList`,
`m_userWriterList`, `m_userReaderList`, the receiver list and the sender pool
are what they were before the call. -/
theorem create_invalid_locator_rejected (net : Network) (p : Participant)
    (param : EndpointAttributes) (entityId : EntityId_t) (isBuiltin enable : Bool)
    (loc : Locator_t)
    (hloc : loc ∈ param.unicastLocatorList ∨ loc ∈ param.multicastLocatorList)
    (hbad : net.IsLocatorValid loc = false) :
    ((createWriter net p param entityId isBuiltin).1 = none ∧
      (createWriter net p param entityId isBuiltin).2.heap = p.heap ∧
      (createWriter net p param entityId isBuiltin).2.m_allWriterList = p.m_allWriterList ∧
      (createWriter net p param entityId isBuiltin).2.m_allReaderList = p.m_allReaderList ∧
      (createWriter net p param entityId isBuiltin).2.m_userWriterList = p.m_userWriterList ∧
      (createWriter net p param entityId isBuiltin).2.m_userReaderList = p.m_userReaderList ∧
      (createWriter net p param entityId isBuiltin).2.m_receiverResourcelist =
        p.m_receiverResourcelist ∧
      (createWriter net p param entityId isBuiltin).2.m_senderResource = p.m_senderResource) ∧
    ((createReader net p param entityId isBuiltin enable).1 = none ∧
      (createReader net p param entityId isBuiltin enable).2.heap = p.heap ∧
      (createReader net p param entityId isBuiltin enable).2.m_allWriterList =
        p.m_allWriterList ∧
      (createReader net p param entityId isBuiltin enable).2.m_allReaderList =
        p.m_allReaderList ∧
      (createReader net p param entityId isBuiltin enable).2.m_userWriterList =
        p.m_userWriterList ∧
      (createReader net p param entityId isBuiltin enable).2.m_userReaderList =
        p.m_userReaderList ∧
      (createReader net p param entityId isBuiltin enable).2.m_receiverResourcelist =
        p.m_receiverResourcelist ∧
      (createReader net p param entityId isBuiltin enable).2.m_senderResource =
        p.m_senderResource) := by
  have hv : (param.unicastLocatorList.all net.IsLocatorValid &&
      param.multicastLocatorList.all net.IsLocatorValid) = false := by
    rw [Bool.and_eq_false_iff]
    rcases hloc with h | h
    · left
      rw [List.all_eq_false]
      exact ⟨loc, h, by simp [hbad]⟩
    · right
      rw [List.all_eq_false]
      exact ⟨loc, h, by simp [hbad]⟩
  obtain ⟨c, hw⟩ := createWriter_invalid net p param entityId isBuiltin hv
  obtain ⟨c2, hr⟩ := createReader_invalid net p param entityId isBuiltin enable hv
  rw [hw, hr]
  exact ⟨⟨rfl, rfl, rfl, rfl, rfl, rfl, rfl, rfl⟩, ⟨rfl, rfl, rfl, rfl, rfl, rfl, rfl, rfl⟩⟩

/-- C12, witness: on the scenario participant, a writer whose multicast list
holds a locator of negative kind and a reader with that list are both
refused, and `m_allWriterList`, `m_allReaderList` stay empty. -/
theorem create_invalid_locator_rejected_witness :
    scenarioNet.IsLocatorValid badLocator = false ∧
    (createWriter scenarioNet scenarioParticipant
      { plainParam ReliabilityKind_t.RELIABLE TopicKind_t.NO_KEY with
        multicastLocatorList := [udp4 7413, badLocator] } c_EntityId_Unknown false).1 = none ∧
    (createWriter scenarioNet scenarioParticipant
      { plainParam ReliabilityKind_t.RELIABLE TopicKind_t.NO_KEY with
        multicastLocatorList := [udp4 7413, badLocator] }
      c_EntityId_Unknown false).2.m_allWriterList = [] ∧
    (createReader scenarioNet scenarioParticipant
      { plainParam ReliabilityKind_t.RELIABLE TopicKind_t.NO_KEY with
        multicastLocatorList := [udp4 7413, badLocator] } c_EntityId_Unknown false true).1
      = none ∧
    (createReader scenarioNet scenarioParticipant
      { plainParam ReliabilityKind_t.RELIABLE TopicKind_t.NO_KEY with
        multicastLocatorList := [udp4 7413, badLocator] }
      c_EntityId_Unknown false true).2.m_allReaderList = [] :=
  ⟨by decide,
   (create_invalid_locator_rejected scenarioNet scenarioParticipant
      { plainParam ReliabilityKind_t.RELIABLE TopicKind_t.NO_KEY with
        multicastLocatorList := [udp4 7413, badLocator] } c_EntityId_Unknown false true
      badLocator (Or.inr (by decide)) (by decide)).1.1,
   (create_invalid_locator_rejected scenarioNet scenarioParticipant
      { plainParam ReliabilityKind_t.RELIABLE TopicKind_t.NO_KEY with
        multicastLocatorList := [udp4 7413, badLocator] } c_EntityId_Unknown false true
      badLocator (Or.inr (by decide)) (by decide)).1.2.2.1,
   (create_invalid_locator_rejected scenarioNet scenarioParticipant
      { plainParam ReliabilityKind_t.RELIABLE TopicKind_t.NO_KEY with
        multicastLocatorList := [udp4 7413, badLocator] } c_EntityId_Unknown false true
      badLocator (Or.inr (by decide)) (by decide)).2.1,
   (create_invalid_locator_rejected scenarioNet scenarioParticipant
      { plainParam ReliabilityKind_t.RELIABLE TopicKind_t.NO_KEY with
        multicastLocatorList := [udp4 7413, badLocator] } c_EntityId_Unknown false true
      badLocator (Or.inr (by decide)) (by decide)).2.2.2.2.1⟩

/-! ## C13: duplicate reader ids -/

/-- C13, the code at the failing input. On the scenario participant a
non-built-in reader is created with automatic id and entity number 5 in its
attributes (NO_KEY): it gets id `[0x00, 0x00, 0x05, 0x04]` and is registered in
`m_userReaderList`. A second `createReader` with the same attributes derives the
same id, which `existsEntityId` with kind READER finds in `m_userReaderList`,
but the call tests kind WRITER: it succeeds and `m_userReaderList` holds two
readers with that id. -/
theorem createReader_duplicate_accepted :
    (createReader scenarioNet scenarioParticipant
      { plainParam ReliabilityKind_t.BEST_EFFORT TopicKind_t.NO_KEY with m_entityID := 5 }
      c_EntityId_Unknown false true).1 = some 0 ∧
    (createReader scenarioNet scenarioParticipant
      { plainParam ReliabilityKind_t.BEST_EFFORT TopicKind_t.NO_KEY with m_entityID := 5 }
      c_EntityId_Unknown false true).2.entityIdAt 0 = some ⟨0x00, 0x00, 0x05, 0x04⟩ ∧
    existsEntityId
      (createReader scenarioNet scenarioParticipant
        { plainParam ReliabilityKind_t.BEST_EFFORT TopicKind_t.NO_KEY with m_entityID := 5 }
        c_EntityId_Unknown false true).2
      ⟨0x00, 0x00, 0x05, 0x04⟩ EndpointKind_t.READER = true ∧
    existsEntityId
      (createReader scenarioNet scenarioParticipant
        { plainParam ReliabilityKind_t.BEST_EFFORT TopicKind_t.NO_KEY with m_entityID := 5 }
        c_EntityId_Unknown false true).2
      ⟨0x00, 0x00, 0x05, 0x04⟩ EndpointKind_t.WRITER = false ∧
    (createReader scenarioNet
      (createReader scenarioNet scenarioParticipant
        { plainParam ReliabilityKind_t.BEST_EFFORT TopicKind_t.NO_KEY with m_entityID := 5 }
        c_EntityId_Unknown false true).2
      { plainParam ReliabilityKind_t.BEST_EFFORT TopicKind_t.NO_KEY with m_entityID := 5 }
      c_EntityId_Unknown false true).1 = some 1 ∧
    (createReader scenarioNet
      (createReader scenarioNet scenarioParticipant
        { plainParam ReliabilityKind_t.BEST_EFFORT TopicKind_t.NO_KEY with m_entityID := 5 }
        c_EntityId_Unknown false true).2
      { plainParam ReliabilityKind_t.BEST_EFFORT TopicKind_t.NO_KEY with m_entityID := 5 }
      c_EntityId_Unknown false true).2.m_userReaderList = [0, 1] ∧
    (createReader scenarioNet
      (createReader scenarioNet scenarioParticipant
        { plainParam ReliabilityKind_t.BEST_EFFORT TopicKind_t.NO_KEY with m_entityID := 5 }
        c_EntityId_Unknown false true).2
      { plainParam ReliabilityKind_t.BEST_EFFORT TopicKind_t.NO_KEY with m_entityID := 5 }
      c_EntityId_Unknown false true).2.entityIdAt 1 = some ⟨0x00, 0x00, 0x05, 0x04⟩ := by
  decide

/-- The existence test of `createReader` never looks at `m_userReaderList`: with
no user writer, a reader with automatic id and valid locator lists is always
created. -/
theorem createReader_ignores_user_readers (net : Network) (p : Participant)
    (param : EndpointAttributes) (isBuiltin enable : Bool)
    (hw : p.m_userWriterList = [])
    (hu : param.unicastLocatorList.all net.IsLocatorValid = true)
    (hm : param.multicastLocatorList.all net.IsLocatorValid = true) :
    (createReader net p param c_EntityId_Unknown isBuiltin enable).1 = some p.heap.length := by
  have hex : existsEntityId p (entIdOf (readerKindOctet param.topicKind) (nextIdnum p param).1)
      EndpointKind_t.WRITER = false := by
    simp [existsEntityId, hw]
  rw [createReader_auto_fresh net p param isBuiltin enable hex hu hm]
  obtain ⟨q, -, heq⟩ := finishReader_post net
    ((nextIdnum p param).2.alloc
      { m_guid := { guidP := (nextIdnum p param).2.m_guid.guidP,
                    entityId := entIdOf (readerKindOctet param.topicKind) (nextIdnum p param).1 },
        m_att := { param with endpointKind := EndpointKind_t.READER },
        trustedWriter := c_EntityId_Unknown }).2
    (nextIdnum p param).2.heap.length param isBuiltin enable
  rw [heq]
  have hlen : (nextIdnum p param).2.heap.length = p.heap.length := by
    unfold nextIdnum; split <;> rfl
  simp [hlen]

/-! ## C14: the send path -/

theorem copyBuffer_eq_take (msg : CDRMessage_t) (n : Nat) :
    copyBuffer msg n = msg.buffer.take n := by
  induction n with
  | zero => simp [copyBuffer]
  | succ n ih => rw [copyBuffer, ih, List.take_succ]

theorem sendInnerLoop_eq (net : Network) (buffer : List Nat) (dest sit : Locator_t)
    (pool : List SenderResource) :
    sendInnerLoop net buffer dest sit pool =
      (pool.filter (fun sr => net.SenderSupportsLocator sr sit)).map
        (fun sr => { sender := sr, buffer := buffer, destination := dest }) := by
  induction pool with
  | nil => rfl
  | cons it rest ih =>
    by_cases h : net.SenderSupportsLocator it sit = true
    · simp [sendInnerLoop, h, ih]
    · simp [sendInnerLoop, h, ih]

theorem sendOuterLoop_eq (net : Network) (pool : List SenderResource) (buffer : List Nat)
    (dest : Locator_t) (l : LocatorList_t) :
    sendOuterLoop net pool buffer dest l =
      l.flatMap (fun loc =>
        (pool.filter (fun sr => net.SenderSupportsLocator sr loc)).map
          (fun sr => { sender := sr, buffer := buffer, destination := dest })) := by
  induction l with
  | nil => rfl
  | cons sit rest ih => simp [sendOuterLoop, sendInnerLoop_eq, ih, List.flatMap_cons]

/-- C14. For a live endpoint, `sendSync` issues exactly the sends of
`sendSyncSpec`: one `Send(buffer, destination)` for each pair of a locator of
the endpoint's `outLocatorList` (outer, in order) and a sender of the pool
(inner, in order) that supports the locator, and no other; every send carries
the first `length` octets of the message and the given destination; the
participant state (sender pool and indices included) is unchanged. -/
theorem sendSync_sends (net : Network) (p : Participant) (msg : CDRMessage_t) (pend : Nat)
    (destination_loc : Locator_t) (e : Endpoint) (hlive : p.deref pend = some e) :
    (sendSync net p msg pend destination_loc).1 =
      sendSyncSpec net p.m_senderResource msg e.m_att.outLocatorList destination_loc ∧
    (∀ s ∈ (sendSync net p msg pend destination_loc).1,
      s.buffer = msg.buffer.take msg.length ∧ s.destination = destination_loc ∧
      s.sender ∈ p.m_senderResource ∧
      ∃ loc ∈ e.m_att.outLocatorList, net.SenderSupportsLocator s.sender loc = true) ∧
    (sendSync net p msg pend destination_loc).2 = p := by
  have h1 : (sendSync net p msg pend destination_loc).1 =
      sendSyncSpec net p.m_senderResource msg e.m_att.outLocatorList destination_loc := by
    simp [sendSync, sendSyncSpec, hlive, sendOuterLoop_eq, copyBuffer_eq_take]
  refine ⟨h1, ?_, rfl⟩
  intro s hs
  rw [h1] at hs
  simp only [sendSyncSpec, List.mem_flatMap, List.mem_map, List.mem_filter] at hs
  obtain ⟨loc, hloc, sr, ⟨hsr, hsup⟩, rfl⟩ := hs
  exact ⟨rfl, rfl, hsr, loc, hloc, hsup⟩

/-- C14, witness: in `sendScenario` (pool with senders 7000 and 7001, writer
with output locators 7000, 7001, 7002) a message of length 3 is sent once
through sender 7000 and once through sender 7001, in that order, with the first
three octets of the message. -/
theorem sendSync_sends_witness :
    (sendSync scenarioNet sendScenario { buffer := [1, 2, 3, 4], length := 3 } 0 (udp4 9000)).1 =
      [{ sender := ⟨7000⟩, buffer := [1, 2, 3], destination := udp4 9000 },
       { sender := ⟨7001⟩, buffer := [1, 2, 3], destination := udp4 9000 }] :=
  (sendSync_sends scenarioNet sendScenario { buffer := [1, 2, 3, 4], length := 3 } 0 (udp4 9000)
    { m_guid := { guidP := [], entityId := ⟨0, 0, 1, 3⟩ },
      m_att := { plainParam ReliabilityKind_t.BEST_EFFORT TopicKind_t.NO_KEY with
        outLocatorList := [udp4 7000, udp4 7001, udp4 7002] },
      trustedWriter := c_EntityId_Unknown } (by decide)).1.trans (by decide)

/-! ## C15: locator lists after binding -/

/-- The endpoint object after `assignEndpointListenResources`: the two inbound
lists are the bound lists, everything else in the object is unchanged. -/
theorem assignELR_deref (net : Network) (p : Participant) (endp : Nat) (isBuiltin : Bool)
    (e : Endpoint) (hlive : p.deref endp = some e) :
    (assignEndpointListenResources net p endp isBuiltin).2.deref endp =
      some { e with m_att := { e.m_att with
        unicastLocatorList := (bindLists p endp isBuiltin).1
        multicastLocatorList := (bindLists p endp isBuiltin).2 } } := by
  rw [assignELR_eq]
  simp only []
  rw [deref_setAttributes_same]
  have h1 : ∀ (q : Participant) (R : List ReceiverControlBlock),
      (q.withReceivers R).deref endp = q.deref endp := fun _ _ => rfl
  rw [h1, deref_setAttributes_same, h1, hlive]
  rfl

/-- C15. `assignEndpointListenResources` on a live endpoint: when the endpoint
is not built-in and both its unicast and its multicast list are empty,
afterwards its unicast list is the participant's default unicast list and its
multicast list the participant's default multicast list; in every other case
both lists are what they were before. The participant's attributes are not
changed by the call. -/
theorem bind_rewrites_lists (net : Network) (p : Participant) (endp : Nat) (isBuiltin : Bool)
    (e : Endpoint) (hlive : p.deref endp = some e) :
    ∃ e2, (assignEndpointListenResources net p endp isBuiltin).2.deref endp = some e2 ∧
      (assignEndpointListenResources net p endp isBuiltin).2.m_att = p.m_att ∧
      ((isBuiltin = false ∧ e.m_att.unicastLocatorList = [] ∧
          e.m_att.multicastLocatorList = []) →
        e2.m_att.unicastLocatorList = p.m_att.defaultUnicastLocatorList ∧
        e2.m_att.multicastLocatorList = p.m_att.defaultMulticastLocatorList) ∧
      (¬ (isBuiltin = false ∧ e.m_att.unicastLocatorList = [] ∧
          e.m_att.multicastLocatorList = []) →
        e2.m_att.unicastLocatorList = e.m_att.unicastLocatorList ∧
        e2.m_att.multicastLocatorList = e.m_att.multicastLocatorList) := by
  refine ⟨_, assignELR_deref net p endp isBuiltin e hlive, (assignELR_same net p endp isBuiltin).1,
    ?_, ?_⟩
  · rintro ⟨hb, hu, hm⟩
    simp [bindLists, hlive, hb, hu, hm]
  · intro hn
    have hc : (e.m_att.unicastLocatorList.isEmpty && !isBuiltin &&
        e.m_att.multicastLocatorList.isEmpty) = false := by
      cases isBuiltin
      · cases hu : e.m_att.unicastLocatorList with
        | cons x xs => simp
        | nil =>
          cases hm : e.m_att.multicastLocatorList with
          | cons y ys => simp
          | nil => exact absurd ⟨rfl, hu, hm⟩ hn
      · simp
    simp [bindLists, hlive, hc]

/-- C15, witness: on the scenario participant a non-built-in reader created with
`enable = false` and empty lists gets, through `enableReader`, the default lists
`[]` and `[UDPv4:7413]`; enabled as a built-in endpoint it keeps its empty
lists. -/
theorem bind_rewrites_lists_witness :
    ((assignEndpointListenResources scenarioNet
        (createReader scenarioNet scenarioParticipant
          (plainParam ReliabilityKind_t.BEST_EFFORT TopicKind_t.NO_KEY) c_EntityId_Unknown false
          false).2 0 false).2.deref 0).map
        (fun e => (e.m_att.unicastLocatorList, e.m_att.multicastLocatorList))
      = some ([], [udp4 7413]) ∧
    ((assignEndpointListenResources scenarioNet
        (createReader scenarioNet scenarioParticipant
          (plainParam ReliabilityKind_t.BEST_EFFORT TopicKind_t.NO_KEY) c_EntityId_Unknown false
          false).2 0 true).2.deref 0).map
        (fun e => (e.m_att.unicastLocatorList, e.m_att.multicastLocatorList))
      = some ([], []) := by
  obtain ⟨e2, h1, -, h2, -⟩ := bind_rewrites_lists scenarioNet
    (createReader scenarioNet scenarioParticipant
      (plainParam ReliabilityKind_t.BEST_EFFORT TopicKind_t.NO_KEY) c_EntityId_Unknown false
      false).2 0 false
    { m_guid := { guidP := [], entityId := ⟨0, 0, 1, 4⟩ },
      m_att := { plainParam ReliabilityKind_t.BEST_EFFORT TopicKind_t.NO_KEY with
        endpointKind := EndpointKind_t.READER },
      trustedWriter := c_EntityId_Unknown } (by decide)
  obtain ⟨e3, k1, -, -, k2⟩ := bind_rewrites_lists scenarioNet
    (createReader scenarioNet scenarioParticipant
      (plainParam ReliabilityKind_t.BEST_EFFORT TopicKind_t.NO_KEY) c_EntityId_Unknown false
      false).2 0 true
    { m_guid := { guidP := [], entityId := ⟨0, 0, 1, 4⟩ },
      m_att := { plainParam ReliabilityKind_t.BEST_EFFORT TopicKind_t.NO_KEY with
        endpointKind := EndpointKind_t.READER },
      trustedWriter := c_EntityId_Unknown } (by decide)
  refine ⟨?_, ?_⟩
  · rw [h1]
    have := h2 ⟨rfl, rfl, rfl⟩
    simp only [Option.map_some', this.1, this.2]
    decide
  · rw [k1]
    have := k2 (by decide)
    simp only [Option.map_some', this.1, this.2]
    decide

/-! ## C16: repeated association -/

theorem holdsIdOf_addEndpoint (p : Participant) (b : ReceiverControlBlock) (endp : Nat)
    (hlive : p.kindAt endp ≠ none) : holdsIdOf p (addEndpoint p b endp) endp = true := by
  unfold holdsIdOf addEndpoint
  cases hk : p.kindAt endp with
  | none => exact absurd hk hlive
  | some k => cases k <;> simp [foundIn]

theorem idCount_addEndpoint (p : Participant) (b : ReceiverControlBlock) (endp : Nat)
    (hnot : holdsIdOf p b endp = false) : idCount p (addEndpoint p b endp) endp ≤ 1 := by
  unfold holdsIdOf at hnot
  unfold idCount addEndpoint
  cases hk : p.kindAt endp with
  | none => simp
  | some k =>
    rw [hk] at hnot
    cases k with
    | WRITER =>
      simp only [foundIn, List.any_eq_false] at hnot
      have h0 : b.AssociatedWriters.countP (fun a => p.entityIdAt a == p.entityIdAt endp) = 0 := by
        rw [List.countP_eq_zero]
        intro a ha
        exact hnot a ha
      simp [List.countP_append, h0]
    | READER =>
      simp only [foundIn, List.any_eq_false] at hnot
      have h0 : b.AssociatedReaders.countP (fun a => p.entityIdAt a == p.entityIdAt endp) = 0 := by
        rw [List.countP_eq_zero]
        intro a ha
        exact hnot a ha
      simp [List.countP_append, h0]

/-- A scan of the receiver list that changes a block: exactly one block, which
supports the locator and had no entry with the endpoint's id, gets the
endpoint. -/
theorem assignInBlocks_shape (net : Network) (p : Participant) (endp : Nat) (lit : Locator_t)
    (bs bs2 : List ReceiverControlBlock) (h : assignInBlocks net p endp lit bs = some bs2) :
    ∃ pre b post, bs = pre ++ b :: post ∧ bs2 = pre ++ addEndpoint p b endp :: post ∧
      net.ReceiverSupportsLocator b.Receiver lit = true ∧ holdsIdOf p b endp = false ∧
      p.kindAt endp ≠ none := by
  induction bs generalizing bs2 with
  | nil => simp [assignInBlocks] at h
  | cons b bs ih =>
    have rec_case : (assignInBlocks net p endp lit bs).map (fun bs3 => b :: bs3) = some bs2 →
        ∃ pre b0 post, b :: bs = pre ++ b0 :: post ∧ bs2 = pre ++ addEndpoint p b0 endp :: post ∧
          net.ReceiverSupportsLocator b0.Receiver lit = true ∧ holdsIdOf p b0 endp = false ∧
          p.kindAt endp ≠ none := by
      intro hr
      cases hrec : assignInBlocks net p endp lit bs with
      | none => rw [hrec] at hr; exact absurd hr (by simp)
      | some bs3 =>
        rw [hrec] at hr
        obtain ⟨pre, b0, post, e1, e2, hs, hh, hl⟩ := ih bs3 hrec
        have : bs2 = b :: bs3 := by simpa using hr.symm
        subst this
        exact ⟨b :: pre, b0, post, by rw [e1]; rfl, by rw [e2]; rfl, hs, hh, hl⟩
    unfold assignInBlocks at h
    by_cases hs : net.ReceiverSupportsLocator b.Receiver lit = true
    · rw [if_pos hs] at h
      cases hk : (p.deref endp).map (fun e => e.m_att.endpointKind) with
      | none => rw [hk] at h; exact rec_case h
      | some k =>
        rw [hk] at h
        have hk2 : p.kindAt endp = some k := hk
        cases k with
        | WRITER =>
          by_cases hf : foundIn p b.AssociatedWriters (p.entityIdAt endp) = true
          · simp only [hf, if_true] at h
            exact rec_case h
          · simp only [hf, if_false, Option.some.injEq, Bool.false_eq_true] at h
            subst h
            refine ⟨[], b, bs, rfl, ?_, hs, ?_, by rw [hk2]; simp⟩
            · simp [addEndpoint, hk2]
            · simpa [holdsIdOf, hk2] using hf
        | READER =>
          by_cases hf : foundIn p b.AssociatedReaders (p.entityIdAt endp) = true
          · simp only [hf, if_true] at h
            exact rec_case h
          · simp only [hf, if_false, Option.some.injEq, Bool.false_eq_true] at h
            subst h
            refine ⟨[], b, bs, rfl, ?_, hs, ?_, by rw [hk2]; simp⟩
            · simp [addEndpoint, hk2]
            · simpa [holdsIdOf, hk2] using hf
    · rw [if_neg hs] at h
      exact rec_case h

/-- A scan of the receiver list changes nothing when every block that supports
the locator already has an entry with the endpoint's id. -/
theorem assignInBlocks_saturated (net : Network) (p : Participant) (endp : Nat) (lit : Locator_t)
    (bs : List ReceiverControlBlock)
    (h : ∀ b ∈ bs, net.ReceiverSupportsLocator b.Receiver lit = true →
      holdsIdOf p b endp = true) :
    assignInBlocks net p endp lit bs = none := by
  induction bs with
  | nil => rfl
  | cons b bs ih =>
    have ih2 := ih (fun c hc => h c (List.mem_cons_of_mem _ hc))
    unfold assignInBlocks
    by_cases hs : net.ReceiverSupportsLocator b.Receiver lit = true
    · rw [if_pos hs]
      have hb := h b (List.mem_cons_self _ _) hs
      unfold holdsIdOf at hb
      cases hk : (p.deref endp).map (fun e => e.m_att.endpointKind) with
      | none => simp [ih2]
      | some k =>
        have hk2 : p.kindAt endp = some k := hk
        rw [hk2] at hb
        cases k with
        | WRITER => simp only [] at hb ⊢; simp [hb, ih2]
        | READER => simp only [] at hb ⊢; simp [hb, ih2]
    · rw [if_neg hs]
      simp [ih2]

/-- One application of `assignEndpoint2LocatorList` changes at most one block. -/
theorem assignLoop_shape (net : Network) (p : Participant) (endp : Nat) (list : LocatorList_t) :
    assignLoop net p endp list = p.m_receiverResourcelist ∨
    ∃ pre b post, p.m_receiverResourcelist = pre ++ b :: post ∧
      assignLoop net p endp list = pre ++ addEndpoint p b endp :: post ∧
      supportsSome net b list = true ∧ holdsIdOf p b endp = false ∧ p.kindAt endp ≠ none := by
  induction list with
  | nil => exact Or.inl rfl
  | cons lit rest ih =>
    unfold assignLoop
    cases ha : assignInBlocks net p endp lit p.m_receiverResourcelist with
    | some bs2 =>
      obtain ⟨pre, b, post, e1, e2, hs, hh, hl⟩ := assignInBlocks_shape net p endp lit _ bs2 ha
      exact Or.inr ⟨pre, b, post, e1, e2, by simp [supportsSome, hs], hh, hl⟩
    | none =>
      rcases ih with h | ⟨pre, b, post, e1, e2, hs, hh, hl⟩
      · exact Or.inl h
      · refine Or.inr ⟨pre, b, post, e1, e2, ?_, hh, hl⟩
        simp only [supportsSome, List.any_cons, Bool.or_eq_true]
        exact Or.inr hs

/-- An application of `assignEndpoint2LocatorList` changes nothing when every
block that supports a locator of the list has an entry with the endpoint's
id. -/
theorem assignLoop_saturated (net : Network) (p : Participant) (endp : Nat)
    (list : LocatorList_t)
    (h : ∀ b ∈ p.m_receiverResourcelist, supportsSome net b list = true →
      holdsIdOf p b endp = true) :
    assignLoop net p endp list = p.m_receiverResourcelist := by
  induction list with
  | nil => rfl
  | cons lit rest ih =>
    unfold assignLoop
    have hn : assignInBlocks net p endp lit p.m_receiverResourcelist = none :=
      assignInBlocks_saturated net p endp lit _
        (fun b hb hs => h b hb (by simp [supportsSome, hs]))
    rw [hn]
    exact ih (fun b hb hs => h b hb (by
      simp only [supportsSome, List.any_cons, Bool.or_eq_true]
      exact Or.inr hs))

/-- C16, counterexample. With a factory that opens two receivers for
UDPv4:7413, a RELIABLE writer (address 0) and then a reader with
`enable = false` (address 1) are created on the scenario participant. One
application of `assignEndpoint2LocatorList` for the reader and the list
`[UDPv4:7413]` puts the reader in the first block only; a second application
puts it in the second block as well, so two applications do not leave what one
leaves. The same happens through the public `enableReader` called twice. -/
theorem assign_twice_differs :
    RTPSParticipantImpl_new twoReceiverNet 0 scenarioAtt [] = some scenarioParticipant ∧
    associations
      (createReader twoReceiverNet
        (createWriter twoReceiverNet scenarioParticipant
          (plainParam ReliabilityKind_t.RELIABLE TopicKind_t.NO_KEY) c_EntityId_Unknown false).2
        (plainParam ReliabilityKind_t.BEST_EFFORT TopicKind_t.NO_KEY) c_EntityId_Unknown false
        false).2 = [([0], []), ([], [])] ∧
    associations
      (assignEndpoint2LocatorList twoReceiverNet
        (createReader twoReceiverNet
          (createWriter twoReceiverNet scenarioParticipant
            (plainParam ReliabilityKind_t.RELIABLE TopicKind_t.NO_KEY) c_EntityId_Unknown false).2
          (plainParam ReliabilityKind_t.BEST_EFFORT TopicKind_t.NO_KEY) c_EntityId_Unknown false
          false).2 1 [udp4 7413] true false).2 = [([0], [1]), ([], [])] ∧
    associations
      (assignEndpoint2LocatorList twoReceiverNet
        (assignEndpoint2LocatorList twoReceiverNet
          (createReader twoReceiverNet
            (createWriter twoReceiverNet scenarioParticipant
              (plainParam ReliabilityKind_t.RELIABLE TopicKind_t.NO_KEY) c_EntityId_Unknown
              false).2
            (plainParam ReliabilityKind_t.BEST_EFFORT TopicKind_t.NO_KEY) c_EntityId_Unknown false
            false).2 1 [udp4 7413] true false).2 1 [udp4 7413] true false).2
      = [([0], [1]), ([], [1])] ∧
    associations
      (enableReader twoReceiverNet
        (createReader twoReceiverNet
          (createWriter twoReceiverNet scenarioParticipant
            (plainParam ReliabilityKind_t.RELIABLE TopicKind_t.NO_KEY) c_EntityId_Unknown false).2
          (plainParam ReliabilityKind_t.BEST_EFFORT TopicKind_t.NO_KEY) c_EntityId_Unknown false
          false).2 1 false).2 = [([0], [1]), ([], [])] ∧
    associations
      (enableReader twoReceiverNet
        (enableReader twoReceiverNet
          (createReader twoReceiverNet
            (createWriter twoReceiverNet scenarioParticipant
              (plainParam ReliabilityKind_t.RELIABLE TopicKind_t.NO_KEY) c_EntityId_Unknown
              false).2
            (plainParam ReliabilityKind_t.BEST_EFFORT TopicKind_t.NO_KEY) c_EntityId_Unknown false
            false).2 1 false).2 1 false).2 = [([0], [1]), ([], [1])] := by
  decide

/-- C16, amended. Association is idempotent by entity id block by block, not as
a whole. For every participant state, endpoint and locator list, one application
of `assignEndpoint2LocatorList` (1) either changes nothing or appends the
endpoint to exactly one block, which supports a locator of the list and had no
entry with the endpoint's id in the set of the endpoint's kind; (2) changes
nothing when every block that supports a locator of the list already has such
an entry; (3) followed by a second application leaves what the single
application leaves whenever at most one block supports a locator of the list;
(4) never gives a block a second entry with the endpoint's id in the set of the
endpoint's kind. -/
theorem assign_idempotent_per_block (net : Network) (p : Participant) (endp : Nat)
    (list : LocatorList_t) (isMulti isFixed : Bool) :
    ((assignEndpoint2LocatorList net p endp list isMulti isFixed).2 = p ∨
      ∃ pre b post, p.m_receiverResourcelist = pre ++ b :: post ∧
        supportsSome net b list = true ∧ holdsIdOf p b endp = false ∧
        (assignEndpoint2LocatorList net p endp list isMulti isFixed).2 =
          p.withReceivers (pre ++ addEndpoint p b endp :: post)) ∧
    ((∀ b ∈ p.m_receiverResourcelist, supportsSome net b list = true →
        holdsIdOf p b endp = true) →
      (assignEndpoint2LocatorList net p endp list isMulti isFixed).2 = p) ∧
    ((p.m_receiverResourcelist.filter (fun b => supportsSome net b list)).length ≤ 1 →
      (assignEndpoint2LocatorList net
        (assignEndpoint2LocatorList net p endp list isMulti isFixed).2 endp list isMulti
        isFixed).2 = (assignEndpoint2LocatorList net p endp list isMulti isFixed).2) ∧
    ((∀ b ∈ p.m_receiverResourcelist, idCount p b endp ≤ 1) →
      ∀ b ∈ (assignEndpoint2LocatorList net p endp list isMulti isFixed).2.m_receiverResourcelist,
        idCount p b endp ≤ 1) := by
  have hdef : ∀ q : Participant, (assignEndpoint2LocatorList net q endp list isMulti isFixed).2 =
      q.withReceivers (assignLoop net q endp list) := fun _ => rfl
  have heta : ∀ q : Participant, q.withReceivers q.m_receiverResourcelist = q := fun _ => rfl
  refine ⟨?_, ?_, ?_, ?_⟩
  · rcases assignLoop_shape net p endp list with h | ⟨pre, b, post, e1, e2, hs, hh, -⟩
    · left; rw [hdef, h, heta]
    · right; exact ⟨pre, b, post, e1, hs, hh, by rw [hdef, e2]⟩
  · intro hsat
    rw [hdef, assignLoop_saturated net p endp list hsat, heta]
  · intro hone
    rw [hdef p, hdef (p.withReceivers (assignLoop net p endp list))]
    rcases assignLoop_shape net p endp list with h | ⟨pre, b, post, e1, e2, hs, hh, hl⟩
    · rw [h, heta, h, heta]
    · have hsat : ∀ c ∈ (p.withReceivers (assignLoop net p endp list)).m_receiverResourcelist,
          supportsSome net c list = true →
          holdsIdOf (p.withReceivers (assignLoop net p endp list)) c endp = true := by
        intro c hc hcs
        have hc2 : c ∈ pre ++ addEndpoint p b endp :: post := by
          rw [← e2]; exact hc
        have hfil : (pre.filter (fun b => supportsSome net b list)).length +
            ((post.filter (fun b => supportsSome net b list)).length + 1) ≤ 1 := by
          rw [e1, List.filter_append, List.filter_cons_of_pos (by simpa using hs),
            List.length_append, List.length_cons] at hone
          exact hone
        rcases List.mem_append.mp hc2 with hpre | hrest
        · have : c ∈ pre.filter (fun b => supportsSome net b list) :=
            List.mem_filter.mpr ⟨hpre, by simpa using hcs⟩
          have := List.length_pos_of_mem this
          omega
        · rcases List.mem_cons.mp hrest with rfl | hpost
          · exact holdsIdOf_addEndpoint p b endp hl
          · have : c ∈ post.filter (fun b => supportsSome net b list) :=
              List.mem_filter.mpr ⟨hpost, by simpa using hcs⟩
            have := List.length_pos_of_mem this
            omega
      rw [assignLoop_saturated net _ endp list hsat]
      rfl
  · intro hcnt b hb
    rw [hdef] at hb
    rcases assignLoop_shape net p endp list with h | ⟨pre, b0, post, e1, e2, -, hh, -⟩
    · rw [h] at hb; exact hcnt b hb
    · have hb2 : b ∈ pre ++ addEndpoint p b0 endp :: post := by
        rw [← e2]; exact hb
      rcases List.mem_append.mp hb2 with hpre | hrest
      · exact hcnt b (by rw [e1]; exact List.mem_append_left _ hpre)
      · rcases List.mem_cons.mp hrest with rfl | hpost
        · exact idCount_addEndpoint p b0 endp hh
        · exact hcnt b (by rw [e1]; exact List.mem_append_right _ (List.mem_cons_of_mem _ hpost))

/-- C16, witness: on the scenario participant (one receiver for UDPv4:7413,
opened by a RELIABLE writer) a reader created with `enable = false` is
associated once: the second application changes nothing, and the block holds
one entry with the reader's id. -/
theorem assign_idempotent_per_block_witness :
    associations
      (assignEndpoint2LocatorList scenarioNet
        (assignEndpoint2LocatorList scenarioNet
          (createReader scenarioNet
            (createWriter scenarioNet scenarioParticipant
              (plainParam ReliabilityKind_t.RELIABLE TopicKind_t.NO_KEY) c_EntityId_Unknown
              false).2
            (plainParam ReliabilityKind_t.BEST_EFFORT TopicKind_t.NO_KEY) c_EntityId_Unknown false
            false).2 1 [udp4 7413] true false).2 1 [udp4 7413] true false).2
      = [([0], [1])] ∧
    (∀ b ∈ (assignEndpoint2LocatorList scenarioNet
        (createReader scenarioNet
          (createWriter scenarioNet scenarioParticipant
            (plainParam ReliabilityKind_t.RELIABLE TopicKind_t.NO_KEY) c_EntityId_Unknown false).2
          (plainParam ReliabilityKind_t.BEST_EFFORT TopicKind_t.NO_KEY) c_EntityId_Unknown false
          false).2 1 [udp4 7413] true false).2.m_receiverResourcelist,
      idCount
        (createReader scenarioNet
          (createWriter scenarioNet scenarioParticipant
            (plainParam ReliabilityKind_t.RELIABLE TopicKind_t.NO_KEY) c_EntityId_Unknown false).2
          (plainParam ReliabilityKind_t.BEST_EFFORT TopicKind_t.NO_KEY) c_EntityId_Unknown false
          false).2 b 1 ≤ 1) :=
  ⟨by
    rw [(assign_idempotent_per_block scenarioNet
      (createReader scenarioNet
        (createWriter scenarioNet scenarioParticipant
          (plainParam ReliabilityKind_t.RELIABLE TopicKind_t.NO_KEY) c_EntityId_Unknown false).2
        (plainParam ReliabilityKind_t.BEST_EFFORT TopicKind_t.NO_KEY) c_EntityId_Unknown false
        false).2 1 [udp4 7413] true false).2.2.1 (by decide)]
    decide,
   (assign_idempotent_per_block scenarioNet
      (createReader scenarioNet
        (createWriter scenarioNet scenarioParticipant
          (plainParam ReliabilityKind_t.RELIABLE TopicKind_t.NO_KEY) c_EntityId_Unknown false).2
        (plainParam ReliabilityKind_t.BEST_EFFORT TopicKind_t.NO_KEY) c_EntityId_Unknown false
        false).2 1 [udp4 7413] true false).2.2.2 (by decide)⟩

/-! ## C5: construction with both default listening lists empty -/

theorem reachableThroughBlock_eq (net : Network) (p : Participant) (a : Nat) :
    reachableThroughBlock net p a = coveredBy net p.m_receiverResourcelist (inboundLocators p a) a :=
  rfl

theorem isAssociated_grows {b b2 : ReceiverControlBlock} (h : BlockGrows b b2) (a : Nat)
    (ha : isAssociated b a = true) : isAssociated b2 a = true := by
  simp only [isAssociated, Bool.or_eq_true, List.contains, List.elem_iff] at ha ⊢
  rcases ha with ha | ha
  · exact Or.inl (h.2.1.subset ha)
  · exact Or.inr (h.2.2.subset ha)

theorem coveredBy_grow (net : Network) {R R2 : List ReceiverControlBlock}
    (h : List.Forall₂ BlockGrows R R2) (L : LocatorList_t) (a : Nat)
    (hc : coveredBy net R L a = true) : coveredBy net R2 L a = true := by
  simp only [coveredBy, List.any_eq_true, Bool.and_eq_true] at hc ⊢
  exact forall₂_exists_right h
    (fun b => isAssociated b a = true ∧ supportsSome net b L = true)
    (fun b => isAssociated b a = true ∧ supportsSome net b L = true)
    (fun x y hxy hx => ⟨isAssociated_grows hxy a hx.1,
      (supportsSome_grows net hxy L).trans hx.2⟩) hc

theorem coveredBy_left (net : Network) (R : List ReceiverControlBlock) (U M : LocatorList_t)
    (a : Nat) (hc : coveredBy net R U a = true) : coveredBy net R (U ++ M) a = true := by
  simp only [coveredBy, List.any_eq_true, Bool.and_eq_true] at hc ⊢
  obtain ⟨b, hb, h1, h2⟩ := hc
  exact ⟨b, hb, h1, by rw [supportsSome_append, h2]; rfl⟩

theorem coveredBy_right (net : Network) (R : List ReceiverControlBlock) (U M : LocatorList_t)
    (a : Nat) (hc : coveredBy net R M a = true) : coveredBy net R (U ++ M) a = true := by
  simp only [coveredBy, List.any_eq_true, Bool.and_eq_true] at hc ⊢
  obtain ⟨b, hb, h1, h2⟩ := hc
  exact ⟨b, hb, h1, by rw [supportsSome_append, h2]; simp⟩

theorem isAssociated_addEndpoint (p : Participant) (b : ReceiverControlBlock) (a : Nat)
    (hlive : p.kindAt a ≠ none) : isAssociated (addEndpoint p b a) a = true := by
  unfold addEndpoint
  cases hk : p.kindAt a with
  | none => exact absurd hk hlive
  | some k => cases k <;> simp [isAssociated]

theorem supportsSome_addEndpoint (net : Network) (p : Participant) (b : ReceiverControlBlock)
    (a : Nat) (L : LocatorList_t) :
    supportsSome net (addEndpoint p b a) L = supportsSome net b L := by
  unfold addEndpoint
  cases p.kindAt a with
  | none => rfl
  | some k => cases k <;> rfl

/-- An application of `assignEndpoint2LocatorList` for a live endpoint either
finds every supporting block holding the endpoint's id, or appends the endpoint
to one supporting block. -/
theorem assignLoop_cases (net : Network) (p : Participant) (endp : Nat) (list : LocatorList_t)
    (hlive : p.kindAt endp ≠ none) :
    (∀ b ∈ p.m_receiverResourcelist, supportsSome net b list = true →
      holdsIdOf p b endp = true) ∨
    ∃ pre b post, p.m_receiverResourcelist = pre ++ b :: post ∧
      assignLoop net p endp list = pre ++ addEndpoint p b endp :: post ∧
      supportsSome net b list = true := by
  induction list with
  | nil =>
    left
    intro b _ hs
    simp [supportsSome] at hs
  | cons lit rest ih =>
    cases ha : assignInBlocks net p endp lit p.m_receiverResourcelist with
    | some bs2 =>
      obtain ⟨pre, b, post, e1, e2, hs, -, -⟩ := assignInBlocks_shape net p endp lit _ bs2 ha
      refine Or.inr ⟨pre, b, post, e1, ?_, by simp [supportsSome, hs]⟩
      unfold assignLoop
      rw [ha]
      exact e2
    | none =>
      have hn := assignInBlocks_none net p endp lit _ hlive ha
      rcases ih with hsat | ⟨pre, b, post, e1, e2, hs⟩
      · left
        intro b hb hsb
        simp only [supportsSome, List.any_cons, Bool.or_eq_true] at hsb
        rcases hsb with h1 | h2
        · exact hn b hb h1
        · exact hsat b hb h2
      · refine Or.inr ⟨pre, b, post, e1, ?_, ?_⟩
        · unfold assignLoop
          rw [ha]
          exact e2
        · simp only [supportsSome, List.any_cons, Bool.or_eq_true]
          exact Or.inr hs

/-- When some supporting block has no entry with the endpoint's id, an
application of `assignEndpoint2LocatorList` makes the endpoint a member of a
supporting block. -/
theorem assignLoop_adds (net : Network) (p : Participant) (endp : Nat) (list : LocatorList_t)
    (hlive : p.kindAt endp ≠ none)
    (h : ∃ b ∈ p.m_receiverResourcelist, supportsSome net b list = true ∧
      holdsIdOf p b endp = false) :
    coveredBy net (assignLoop net p endp list) list endp = true := by
  rcases assignLoop_cases net p endp list hlive with hsat | ⟨pre, b, post, -, e2, hs⟩
  · obtain ⟨b, hb, hs, hh⟩ := h
    rw [hsat b hb hs] at hh
    exact absurd hh (by simp)
  · rw [e2]
    simp only [coveredBy, List.any_append, List.any_cons, Bool.or_eq_true, Bool.and_eq_true]
    right; left
    exact ⟨isAssociated_addEndpoint p b endp hlive, by rw [supportsSome_addEndpoint]; exact hs⟩

/-- Binding a live endpoint makes it a member of a block that supports one of
its inbound locators, as soon as some block that supports a locator of the
bound lists has no entry with the endpoint's id. -/
theorem bind_member (net : Network) (p : Participant) (endp : Nat) (isBuiltin : Bool)
    (hlive : p.kindAt endp ≠ none)
    (h : ∃ b ∈ p.m_receiverResourcelist,
      supportsSome net b ((bindLists p endp isBuiltin).1 ++ (bindLists p endp isBuiltin).2)
        = true ∧ holdsIdOf p b endp = false) :
    reachableThroughBlock net (assignEndpointListenResources net p endp isBuiltin).2 endp
      = true := by
  rw [assignELR_eq]
  simp only []
  generalize (bindLists p endp isBuiltin).1 = U at h ⊢
  generalize (bindLists p endp isBuiltin).2 = M at h ⊢
  generalize hp1 : (p.withReceivers (assignLoop net p endp U)).setAttributes endp
    (fun a => { a with unicastLocatorList := U }) = p1 at h ⊢
  generalize hq : (p1.withReceivers (assignLoop net p1 endp M)).setAttributes endp
    (fun a => { a with multicastLocatorList := M }) = q at h ⊢
  have hk1 : p1.kindAt endp = p.kindAt endp := by
    rw [← hp1]
    exact kindAt_setAttributes (p.withReceivers (assignLoop net p endp U)) endp
      (fun a => { a with unicastLocatorList := U }) (fun _ => rfl)
  have hid1 : ∀ x, p1.entityIdAt x = p.entityIdAt x := by
    intro x
    rw [← hp1, setAttributes_entityIdAt]
    rfl
  have hR1 : p1.m_receiverResourcelist = assignLoop net p endp U := by rw [← hp1]; rfl
  have hRq : q.m_receiverResourcelist = assignLoop net p1 endp M := by rw [← hq]; rfl
  have hin : inboundLocators q endp = U ++ M := by
    have hd : q.deref endp = (p.deref endp).map (fun e =>
        { e with m_att := { e.m_att with unicastLocatorList := U, multicastLocatorList := M } }) := by
      rw [← hq, deref_setAttributes_same]
      have : (p1.withReceivers (assignLoop net p1 endp M)).deref endp = p1.deref endp := rfl
      rw [this, ← hp1, deref_setAttributes_same]
      have : (p.withReceivers (assignLoop net p endp U)).deref endp = p.deref endp := rfl
      rw [this]
      cases p.deref endp <;> rfl
    unfold inboundLocators
    rw [hd]
    cases hde : p.deref endp with
    | none => exact absurd (by simp [Participant.kindAt, hde]) hlive
    | some e => rfl
  have hlive1 : p1.kindAt endp ≠ none := by rw [hk1]; exact hlive
  have g2 : List.Forall₂ BlockGrows p1.m_receiverResourcelist (assignLoop net p1 endp M) :=
    assignLoop_grows net p1 endp M
  have second : ∀ c ∈ p1.m_receiverResourcelist, supportsSome net c M = true →
      holdsIdOf p c endp = false → coveredBy net (assignLoop net p1 endp M) (U ++ M) endp = true := by
    intro c hc hsc hhc
    apply coveredBy_right
    apply assignLoop_adds net p1 endp M hlive1
    exact ⟨c, hc, hsc, by rw [holdsIdOf_congr p p1 c endp hid1 hk1]; exact hhc⟩
  rw [reachableThroughBlock_eq, hin, hRq]
  obtain ⟨b, hb, hs, hh⟩ := h
  rw [supportsSome_append, Bool.or_eq_true] at hs
  rcases hs with hsU | hsM
  · have c1 := assignLoop_adds net p endp U hlive ⟨b, hb, hsU, hh⟩
    rw [← hR1] at c1
    exact coveredBy_left net _ U M endp (coveredBy_grow net g2 U endp c1)
  · rcases assignLoop_cases net p endp U hlive with hsat | ⟨pre, b0, post, e1, e2, -⟩
    · have : p1.m_receiverResourcelist = p.m_receiverResourcelist := by
        rw [hR1, assignLoop_saturated net p endp U hsat]
      exact second b (by rw [this]; exact hb) hsM hh
    · rw [e1] at hb
      rcases List.mem_append.mp hb with hpre | hrest
      · exact second b (by rw [hR1, e2]; exact List.mem_append_left _ hpre) hsM hh
      · rcases List.mem_cons.mp hrest with rfl | hpost
        · have c1 : coveredBy net p1.m_receiverResourcelist M endp = true := by
            rw [hR1, e2]
            simp only [coveredBy, List.any_append, List.any_cons, Bool.or_eq_true,
              Bool.and_eq_true]
            right; left
            exact ⟨isAssociated_addEndpoint p b endp hlive,
              by rw [supportsSome_addEndpoint]; exact hsM⟩
          exact coveredBy_right net _ U M endp (coveredBy_grow net g2 M endp c1)
        · exact second b
            (by rw [hR1, e2]; exact List.mem_append_right _ (List.mem_cons_of_mem _ hpost))
            hsM hh

theorem bindLists_eq_effective (p : Participant) (a : Nat) (isBuiltin : Bool) (e : Endpoint)
    (hd : p.deref a = some e) :
    bindLists p a isBuiltin = effectiveLists p.m_att e.m_att isBuiltin := by
  simp [bindLists, effectiveLists, hd]

theorem enableReader_state (net : Network) (p : Participant) (reader : Nat) (isBuiltin : Bool) :
    (enableReader net p reader isBuiltin).2 =
      (assignEndpointListenResources net p reader isBuiltin).2 := by
  unfold enableReader
  simp only []
  split <;> rfl

/-- `enableReader` on a live endpoint makes it a member of a block that supports
one of its inbound locators, as soon as some block that supports a locator of
its effective lists has no entry with the endpoint's id. -/
theorem enableReader_member (net : Network) (p : Participant) (a : Nat) (isBuiltin : Bool)
    (e : Endpoint) (hd : p.deref a = some e)
    (hb : ∃ b ∈ p.m_receiverResourcelist,
      supportsSome net b ((effectiveLists p.m_att e.m_att isBuiltin).1 ++
        (effectiveLists p.m_att e.m_att isBuiltin).2) = true ∧ holdsIdOf p b a = false) :
    reachableThroughBlock net (enableReader net p a isBuiltin).2 a = true := by
  rw [enableReader_state]
  refine bind_member net p a isBuiltin (by simp [Participant.kindAt, hd]) ?_
  rw [bindLists_eq_effective p a isBuiltin e hd]
  exact hb

end FastRTPS
